import Mathlib

/-!
# Lifemonk web application: scroll orchestration

A shallow embedding of the client-side logic of `src/web_application`:

* `App.jsx`      – the Lenis smooth-scroll effect (frame loop, cleanup, easing);
* `Navbar.jsx`   – the hash-scrolling effect run on every location change,
  the theme preference (load, toggle, persist, system signal) and the other
  event handlers of the navigation bar;
* `Contact.jsx`  – the contact form, as the element tree it renders;
* the link targets of the components and pages, the blog data of `Blog.jsx`
  and the colour table of `tailwind.config.js`.

Browser facilities (`document.getElementById`, `Element.scrollIntoView`,
`window.scrollTo`, `requestAnimationFrame`, `localStorage`, `classList`,
`matchMedia`) are modelled by explicit state
passing over small records.
-/

namespace Lifemonk

/-! ## Document, location and viewport -/

/-- The `behavior` option of a scroll request. -/
inductive Behavior where
  | smooth
  | instant
  deriving DecidableEq, Repr

/-- A mounted DOM element, as far as scrolling is concerned: its `id`
attribute and its vertical position in the document. -/
structure Element where
  id : String
  offsetTop : Nat
  deriving DecidableEq, Repr

/-- The mounted document: its elements in tree order. -/
abbrev Document := List Element

/-- The router location read by `useLocation()`. The `hash` field is either
empty or starts with `#`. -/
structure Location where
  pathname : String
  search : String
  hash : String
  deriving DecidableEq, Repr

/-- What a scroll request aims at: an element (`scrollIntoView`) or an
absolute vertical offset (`window.scrollTo`). -/
inductive ScrollTarget where
  | element (e : Element)
  | offset (top : Nat)
  deriving DecidableEq, Repr

/-- One recorded scroll request. -/
structure ScrollRequest where
  target : ScrollTarget
  behavior : Behavior
  deriving DecidableEq, Repr

/-- The viewport: the current vertical scroll position and the log of every
scroll request issued so far (oldest first). -/
structure Viewport where
  scrollY : Nat
  requests : List ScrollRequest
  deriving DecidableEq, Repr

/-- Errors a script can raise. -/
inductive JsError where
  | typeError
  | syntaxError
  | invalidCharacterError
  deriving DecidableEq, Repr

/-- The method `String.prototype.slice(start)`: the string without its first
`start` characters. -/
def slice (s : String) (start : Nat) : String :=
  String.mk (s.data.drop start)

/-- The method `document.getElementById(id)`: the first element in tree order
carrying that id, `none` (JavaScript `null`) when there is none. The empty
string is no id. -/
def getElementById (doc : Document) (id : String) : Option Element :=
  if id = "" then none else doc.find? (fun e => e.id == id)

/-- The method `elem.scrollIntoView({ behavior })`. Calling it on `null`
raises a `TypeError`; on an element it records one request aimed at that
element. A smooth request does not move the viewport at the time of the call
(the animation does so on later frames); an instant one snaps to the element. -/
def scrollIntoView (elem : Option Element) (behavior : Behavior) (v : Viewport) :
    Except JsError Viewport :=
  match elem with
  | none => .error .typeError
  | some e =>
    .ok { scrollY := match behavior with
                     | .smooth => v.scrollY
                     | .instant => e.offsetTop
          requests := v.requests ++ [⟨.element e, behavior⟩] }

/-- The call `window.scrollTo(0, y)`: an instant jump to offset `y`. -/
def windowScrollTo (y : Nat) (v : Viewport) : Viewport :=
  { scrollY := y, requests := v.requests ++ [⟨.offset y, .instant⟩] }

/-- Navbar.jsx, lines 78-85: the effect keyed on `[location]`.
```
if (location.hash) {
    const elem = document.getElementById(location.hash.slice(1));
    if (elem) { elem.scrollIntoView({ behavior: 'smooth' }); }
}
```
A string is truthy exactly when it is not empty; an element reference is
truthy exactly when it is not `null`. -/
def hashEffect (doc : Document) (location : Location) (v : Viewport) :
    Except JsError Viewport :=
  if location.hash ≠ "" then
    let elem := getElementById doc (slice location.hash 1)
    if elem.isSome then
      scrollIntoView elem .smooth v
    else
      .ok v
  else
    .ok v

/-- Modelled from the spec: the component `ScrollToTop`, which App.jsx imports
from `./components/ScrollToTop` and mounts before `Navbar`, is not among the
source files. The spec's route-reconciliation policy gives it the reset half
of "reset-or-jump exactly once per navigation, never both": a location
without a fragment gets `requestScrollTo(0, instant)`; a location with a
fragment is left to the jump (and a fragment without a matching anchor is
dropped silently, with no scroll change). -/
def ScrollToTop (location : Location) (v : Viewport) : Viewport :=
  if location.hash = "" then windowScrollTo 0 v else v

/-- One navigation event as App.jsx mounts it (lines 39-42): the effect of
`<ScrollToTop />` runs first, then the hash effect of `<Navbar />`. -/
def navigate (doc : Document) (location : Location) (v : Viewport) :
    Except JsError Viewport :=
  hashEffect doc location (ScrollToTop location v)

/-- The requests issued between two viewport states: the entries the later
log has beyond the earlier one. -/
def issued (before after : Viewport) : List ScrollRequest :=
  after.requests.drop before.requests.length

/-- How many requests of a list carry the given behaviour. -/
def countBehavior (b : Behavior) (rs : List ScrollRequest) : Nat :=
  (rs.filter (fun r => r.behavior == b)).length

/-- A sample document: the sections of Hero.jsx (line 7), Features.jsx
(line 55) and About.jsx (line 6), which carry the ids `home`, `features` and
`about`, at sample offsets. It serves as a concrete input only; the page
that mounts these sections is not among the source files. -/
def homeDocument : Document :=
  [⟨"home", 0⟩, ⟨"features", 1200⟩, ⟨"about", 2400⟩]

/-- A viewport scrolled to offset 300 with no request issued yet. -/
def sampleViewport : Viewport :=
  { scrollY := 300, requests := [] }

/-! ## App.jsx: the Lenis effect -/

/-- The Lenis instance, as far as App.jsx drives it: whether `destroy()` has
been called on it, and the log of its `raf(time)` calls, each with the
timestamp it received and whether the instance was already destroyed. -/
structure Lenis where
  destroyed : Bool
  rafLog : List (Nat × Bool)
  deriving DecidableEq, Repr

/-- The expression `new Lenis({...})` (App.jsx, lines 20-24). -/
def Lenis.new : Lenis :=
  { destroyed := false, rafLog := [] }

/-- The call `lenis.raf(time)`. -/
def Lenis.raf (time : Nat) (l : Lenis) : Lenis :=
  { l with rafLog := l.rafLog ++ [(time, l.destroyed)] }

/-- The call `lenis.destroy()`. -/
def Lenis.destroy (l : Lenis) : Lenis :=
  { l with destroyed := true }

/-- The state App's effect owns: the Lenis instance, the number of callbacks
queued with `requestAnimationFrame` and not yet run (the only callback ever
queued is `raf`), and how often `raf` has been invoked. -/
structure AppState where
  lenis : Lenis
  pending : Nat
  rafInvocations : Nat
  deriving DecidableEq, Repr

/-- The call `requestAnimationFrame(raf)`: one more callback is pending. -/
def requestAnimationFrame (s : AppState) : AppState :=
  { s with pending := s.pending + 1 }

/-- App.jsx, lines 26-29:
```
function raf(time) {
  lenis.raf(time);
  requestAnimationFrame(raf);
}
```
-/
def raf (time : Nat) (s : AppState) : AppState :=
  requestAnimationFrame
    { s with lenis := s.lenis.raf time, rafInvocations := s.rafInvocations + 1 }

/-- App.jsx, lines 19-31: the body of the effect, run on mount. It creates
the Lenis instance and queues the first frame callback. -/
def mount : AppState :=
  requestAnimationFrame { lenis := Lenis.new, pending := 0, rafInvocations := 0 }

/-- App.jsx, lines 33-35: the cleanup the effect returns,
`() => { lenis.destroy(); }`. -/
def teardown (s : AppState) : AppState :=
  { s with lenis := s.lenis.destroy }

/-- One display refresh at timestamp `time`: the browser takes the callbacks
queued so far and runs each of them; callbacks queued meanwhile wait for the
next refresh. -/
def displayRefresh (time : Nat) (s : AppState) : AppState :=
  (raf time)^[s.pending] { s with pending := 0 }

/-- A run of display refreshes at the given timestamps, in order. -/
def refreshes (times : List Nat) (s : AppState) : AppState :=
  times.foldl (fun st t => displayRefresh t st) s

/-! ## App.jsx: the Lenis configuration -/

/-- App.jsx, line 21: `duration: 1.2`. -/
noncomputable def duration : ℝ := 1.2

/-- App.jsx, line 22:
`easing: (t) => Math.min(1, 1.001 - Math.pow(2, -10 * t))`,
read over the real numbers. -/
noncomputable def easing (t : ℝ) : ℝ :=
  min 1 (1.001 - (2 : ℝ) ^ (-10 * t))

/-- Modelled from the spec: the interpolation the smooth-scroll library
performs with the configured `duration` and `easing` is not among the source
files (Lenis is a dependency of App.jsx). A smooth scroll from `s` to `T`
stands, after `elapsed` seconds, at `s + (T - s) * e(min(1, elapsed/duration))`:
normalised elapsed time is mapped to normalised progress by the easing. -/
noncomputable def interpolate (s T elapsed : ℝ) : ℝ :=
  s + (T - s) * easing (min 1 (elapsed / duration))

/-- A running smooth scroll: where it started, where it goes, the time
elapsed since the request and the current offset. -/
structure Animation where
  start : ℝ
  target : ℝ
  elapsed : ℝ
  offset : ℝ

/-- Modelled from the spec: `requestScrollTo(T, smooth)` issued at offset
`s` (the scroll library itself is not among the source files). -/
def requestScrollTo (s T : ℝ) : Animation :=
  { start := s, target := T, elapsed := 0, offset := s }

/-- Modelled from the spec: one frame step of length `dt` (`onFrame`; the
scroll library itself is not among the source files): time advances and the
offset is re-interpolated. -/
noncomputable def onFrame (dt : ℝ) (a : Animation) : Animation :=
  { a with elapsed := a.elapsed + dt
           offset := interpolate a.start a.target (a.elapsed + dt) }

/-- Modelled from the spec: `n` frame steps of `duration / 60` each
("60 steps per simulated duration"). -/
noncomputable def simulate (n : Nat) (a : Animation) : Animation :=
  (onFrame (duration / 60))^[n] a

/-! ## Navbar.jsx: the theme preference -/

/-- The class list of the document root (`documentElement.classList`): an
ordered set of tokens. -/
abbrev ClassList := List String

/-- The value client storage holds under the key `'theme'`, the only key the
application uses: `none` is the `null` that `localStorage.getItem` returns
for an absent key. -/
abbrev Storage := Option String

/-- ASCII whitespace, which a class token must not contain. -/
def isAsciiWhitespace (c : Char) : Bool :=
  c == ' ' || c == '\t' || c == '\n' || c == '\x0c' || c == '\r'

/-- The method `classList.remove(...tokens)`. -/
def classListRemove (tokens : List String) (classes : ClassList) : ClassList :=
  classes.filter (fun c => !tokens.contains c)

/-- The method `classList.add(token)`: a `SyntaxError` for the empty token,
an `InvalidCharacterError` for one with whitespace; otherwise the token is
appended unless already present. -/
def classListAdd (token : String) (classes : ClassList) : Except JsError ClassList :=
  if token = "" then .error .syntaxError
  else if token.data.any isAsciiWhitespace then .error .invalidCharacterError
  else .ok (if classes.contains token then classes else classes ++ [token])

/-- Navbar.jsx, lines 10-12: the initial theme state,
`localStorage.getItem('theme') || 'system'`. Both `null` and the empty
string are falsy. -/
def initialTheme (storage : Storage) : String :=
  match storage with
  | none => "system"
  | some stored => if stored = "" then "system" else stored

/-- What the theme effect reads and writes outside React state: the root's
class list and client storage. -/
structure ThemeEnv where
  rootClasses : ClassList
  storage : Storage
  deriving DecidableEq, Repr

/-- Navbar.jsx, lines 23-37: the theme effect, keyed on `[theme]`.
```
root.classList.remove('light', 'dark');
if (theme === 'system') {
    const systemTheme = window.matchMedia('(prefers-color-scheme: dark)').matches
        ? 'dark' : 'light';
    root.classList.add(systemTheme);
    return;
}
root.classList.add(theme);
localStorage.setItem('theme', theme);
```
`prefersDark` is the `matches` flag of the media query. -/
def themeEffect (theme : String) (prefersDark : Bool) (env : ThemeEnv) :
    Except JsError ThemeEnv :=
  let classes := classListRemove ["light", "dark"] env.rootClasses
  if theme = "system" then
    let systemTheme := if prefersDark then "dark" else "light"
    match classListAdd systemTheme classes with
    | .error err => .error err
    | .ok added => .ok { env with rootClasses := added }
  else
    match classListAdd theme classes with
    | .error err => .error err
    | .ok added => .ok { rootClasses := added, storage := some theme }

/-- Navbar.jsx, lines 43-48: the listener `handleChange`, closed over the
`theme` of the render that registered it; `mediaMatches` is
`mediaQuery.matches` at the time of the event. -/
def handleChange (theme : String) (mediaMatches : Bool) (classes : ClassList) :
    Except JsError ClassList :=
  if theme = "system" then
    classListAdd (if mediaMatches then "dark" else "light")
      (classListRemove ["light", "dark"] classes)
  else
    .ok classes

/-- Navbar.jsx, lines 39-53: the media-query effect, keyed on `[theme]`. It
returns the `change` listener it registers, if any: none unless the theme is
`'system'` (`if (theme !== 'system') return;`). Its cleanup removes the
listener, so at any time the registered listener is the one of the current
theme. -/
def mediaQueryEffect (theme : String) :
    Option (Bool → ClassList → Except JsError ClassList) :=
  if theme ≠ "system" then none else some (handleChange theme)

/-- Navbar.jsx, lines 55-58: the new theme `toggleTheme` passes to `setTheme`,
`theme === 'light' ? 'dark' : theme === 'dark' ? 'system' : 'light'`. -/
def toggleTheme (theme : String) : String :=
  if theme = "light" then "dark" else if theme = "dark" then "system" else "light"

/-- Whether a string is one of the three enumerated theme values. -/
def isThemeValue (theme : String) : Bool :=
  theme == "light" || theme == "dark" || theme == "system"

/-! ## Navbar.jsx: state and event handlers -/

/-- The state of the mounted navigation bar: its three `useState` cells and
the parts of the browser its handlers and effects touch. -/
structure NavbarState where
  isScrolled : Bool
  isMobileMenuOpen : Bool
  theme : String
  env : ThemeEnv
  prefersDark : Bool
  viewport : Viewport
  deriving DecidableEq, Repr

/-- The events the navigation bar reacts to. -/
inductive NavbarEvent where
  /-- A `scroll` event of the window, which now stands at `scrollY`. -/
  | scroll (scrollY : Nat)
  /-- The router location changed (with the document mounted at that time). -/
  | locationChange (doc : Document) (location : Location)
  /-- A click on the hamburger button. -/
  | hamburgerClick
  /-- A click on one of the `navLinks` entries of the dropdown. -/
  | navLinkClick
  /-- A click on the logo link. -/
  | logoClick
  /-- A click on the theme button. -/
  | themeClick
  /-- The system colour-scheme preference changed; `mediaMatches` is the new
  `matches` flag of `(prefers-color-scheme: dark)`. -/
  | preferenceChange (mediaMatches : Bool)
  deriving DecidableEq, Repr

/-- Navbar.jsx, lines 15-17: `handleScroll`,
`setIsScrolled(window.scrollY > 20)`. -/
def handleScroll (s : NavbarState) : NavbarState :=
  { s with isScrolled := decide (s.viewport.scrollY > 20) }

/-- Mounting the navigation bar (Navbar.jsx, lines 7-12 and the effects run
after the first render): `isScrolled` and `isMobileMenuOpen` start `false`,
the theme is loaded from storage, then the theme effect and the hash effect
run. -/
def Navbar.mount (storage : Storage) (rootClasses : ClassList) (prefersDark : Bool)
    (doc : Document) (location : Location) (viewport : Viewport) :
    Except JsError NavbarState :=
  let theme := initialTheme storage
  match themeEffect theme prefersDark { rootClasses := rootClasses, storage := storage } with
  | .error err => .error err
  | .ok env =>
    match hashEffect doc location viewport with
    | .error err => .error err
    | .ok v =>
      .ok { isScrolled := false, isMobileMenuOpen := false, theme := theme,
            env := env, prefersDark := prefersDark, viewport := v }

/-- The reaction of the mounted navigation bar to one event.
* `scroll`: the listener of lines 14-20.
* `locationChange`: the hash effect of lines 78-85.
* `hamburgerClick`: line 117, `setIsMobileMenuOpen(!isMobileMenuOpen)`.
* `navLinkClick`: line 138, `setIsMobileMenuOpen(false)`.
* `logoClick`: line 97, `window.scrollTo(0, 0)`.
* `themeClick`: line 106, `toggleTheme`; the new theme differs from the old
  one, so the theme effect (keyed on `[theme]`) runs with it.
* `preferenceChange`: the listener the media-query effect registered for
  the current theme, if any. -/
def Navbar.step (event : NavbarEvent) (s : NavbarState) : Except JsError NavbarState :=
  match event with
  | .scroll scrollY =>
    .ok (handleScroll { s with viewport := { s.viewport with scrollY := scrollY } })
  | .locationChange doc location =>
    match hashEffect doc location s.viewport with
    | .error err => .error err
    | .ok v => .ok { s with viewport := v }
  | .hamburgerClick => .ok { s with isMobileMenuOpen := !s.isMobileMenuOpen }
  | .navLinkClick => .ok { s with isMobileMenuOpen := false }
  | .logoClick => .ok { s with viewport := windowScrollTo 0 s.viewport }
  | .themeClick =>
    let newTheme := toggleTheme s.theme
    match themeEffect newTheme s.prefersDark s.env with
    | .error err => .error err
    | .ok env => .ok { s with theme := newTheme, env := env }
  | .preferenceChange mediaMatches =>
    match mediaQueryEffect s.theme with
    | none => .ok { s with prefersDark := mediaMatches }
    | some listener =>
      match listener mediaMatches s.env.rootClasses with
      | .error err => .error err
      | .ok classes =>
        .ok { s with prefersDark := mediaMatches
                     env := { s.env with rootClasses := classes } }

/-- A run of events, in order; it stops at the first error. -/
def Navbar.run (events : List NavbarEvent) (s : NavbarState) : Except JsError NavbarState :=
  match events with
  | [] => .ok s
  | event :: rest =>
    match Navbar.step event s with
    | .error err => .error err
    | .ok next => Navbar.run rest next

/-- A page reload: the navigation bar is mounted afresh; of the old state
only client storage persists. -/
def Navbar.reload (s : NavbarState) (doc : Document) (location : Location) :
    Except JsError NavbarState :=
  Navbar.mount s.env.storage [] s.prefersDark doc location { scrollY := 0, requests := [] }

/-! ## App.jsx: the route table -/

/-- The page components App.jsx routes to (imports of lines 6-14). -/
inductive PageComponent where
  | Home
  | Pricing
  | Schools
  | Blog
  | OurStory
  | Contact
  | PrivacyPolicy
  | TermsOfService
  | CookiePolicy
  deriving DecidableEq, Repr

/-- App.jsx, lines 44-54: the `<Route path=... element=... />` entries of
`<Routes>`, in source order. -/
def routes : List (String × PageComponent) :=
  [ ("/", .Home),
    ("/contact", .Contact),
    ("/pricing", .Pricing),
    ("/schools", .Schools),
    ("/blog", .Blog),
    ("/story", .OurStory),
    ("/privacy", .PrivacyPolicy),
    ("/terms", .TermsOfService),
    ("/cookies", .CookiePolicy) ]

/-- The element rendered for a path: that of the first route whose path is
the given one. -/
def routeElement (path : String) : Option PageComponent :=
  (routes.find? (fun r => r.1 == path)).map (fun r => r.2)

/-- The paths that route to a given page component. -/
def pathsTo (page : PageComponent) : List String :=
  (routes.filter (fun r => r.2 == page)).map (fun r => r.1)

/-! ## Contact.jsx: the rendered element tree -/

/-- The value of a JSX prop: a string literal, or an event handler acting on
the application state `σ`; the handler returns the new state and whether it
called `event.preventDefault()`. -/
inductive PropValue (σ : Type) where
  | text (value : String)
  | handler (run : σ → σ × Bool)

/-- A JSX node: an element with its tag, its props in source order and its
children, or a text node. -/
inductive Jsx (σ : Type) where
  | element (tag : String) (props : List (String × PropValue σ)) (children : List (Jsx σ))
  | text (content : String)

/-- Whether a prop value is an event handler. -/
def PropValue.isHandler {σ : Type} : PropValue σ → Bool
  | .text _ => false
  | .handler _ => true

/-- The props of a node (a text node has none). -/
def Jsx.props {σ : Type} : Jsx σ → List (String × PropValue σ)
  | .element _ props _ => props
  | .text _ => []

/-- The children of a node (a text node has none). -/
def Jsx.children {σ : Type} : Jsx σ → List (Jsx σ)
  | .element _ _ children => children
  | .text _ => []

/-- The handler a prop list binds to the given prop name (`onSubmit`,
`onClick`, ...), if any. -/
def handlerOf {σ : Type} (name : String) (props : List (String × PropValue σ)) :
    Option (σ → σ × Bool) :=
  props.findSome? (fun p =>
    if p.1 = name then
      match p.2 with
      | .handler run => some run
      | .text _ => none
    else none)

/-- Dispatching an event to the node reached from `node` by the child
indices `path`: the handlers bound to `name` run from the target up through
its ancestors (bubbling). The result is the state the handlers leave and
whether one of them prevented the browser's default action. A path that
leaves the tree reaches no target. This is the handler part of an event
only; `submitForm` and `clickButton` add the default action. -/
def dispatch {σ : Type} (name : String) : List Nat → Jsx σ → σ → σ × Bool
  | [], node, s =>
    match handlerOf name node.props with
    | some run => run s
    | none => (s, false)
  | i :: rest, node, s =>
    match node.children.get? i with
    | none => (s, false)
    | some child =>
      let below := dispatch name rest child s
      match handlerOf name node.props with
      | some run => ((run below.1).1, below.2 || (run below.1).2)
      | none => below

/-- The node reached by a path of child indices. -/
def Jsx.descend {σ : Type} : List Nat → Jsx σ → Option (Jsx σ)
  | [], node => some node
  | i :: rest, node =>
    match node.children.get? i with
    | none => none
    | some child => Jsx.descend rest child

/-- The tag of a node (empty for a text node). -/
def Jsx.tag {σ : Type} : Jsx σ → String
  | .element tag _ _ => tag
  | .text _ => ""

mutual
/-- Whether any element of the tree binds an event handler. -/
def Jsx.hasHandler {σ : Type} : Jsx σ → Bool
  | .element _ props children =>
    props.any (fun p => p.2.isHandler) || Jsx.hasHandlerList children
  | .text _ => false
/-- Whether any tree of the list binds an event handler. -/
def Jsx.hasHandlerList {σ : Type} : List (Jsx σ) → Bool
  | [] => false
  | c :: cs => c.hasHandler || Jsx.hasHandlerList cs
end

/-- Contact.jsx, lines 83-85: the `Send Message` button. -/
def sendMessageButton {σ : Type} : Jsx σ :=
  .element "button" [("className", .text "w-full py-4 bg-primary-light hover:bg-primary-DEFAULT text-white rounded-xl font-semibold shadow-lg shadow-primary-light/30 transition-all transform hover:-translate-y-1")]
    [
      .text "Send Message" ]

/-- Contact.jsx, lines 55-86: the contact form. -/
def contactForm {σ : Type} : Jsx σ :=
  .element "form" [("className", .text "space-y-6")]
    [
      .element "div" []
        [
          .element "label" [("htmlFor", .text "name"), ("className", .text "block text-sm font-medium text-text-secondary mb-2")]
            [
              .text "Name" ],
          .element "input" [("type", .text "text"), ("id", .text "name"), ("className", .text "w-full px-4 py-3 rounded-xl bg-background-light border border-slate-200 focus:border-primary-DEFAULT focus:ring-2 focus:ring-primary-light/20 outline-none transition-all"), ("placeholder", .text "John Doe")] [] ],
      .element "div" []
        [
          .element "label" [("htmlFor", .text "email"), ("className", .text "block text-sm font-medium text-text-secondary mb-2")]
            [
              .text "Email" ],
          .element "input" [("type", .text "email"), ("id", .text "email"), ("className", .text "w-full px-4 py-3 rounded-xl bg-background-light border border-slate-200 focus:border-primary-DEFAULT focus:ring-2 focus:ring-primary-light/20 outline-none transition-all"), ("placeholder", .text "john@example.com")] [] ],
      .element "div" []
        [
          .element "label" [("htmlFor", .text "message"), ("className", .text "block text-sm font-medium text-text-secondary mb-2")]
            [
              .text "Message" ],
          .element "textarea" [("id", .text "message"), ("rows", .text "4"), ("className", .text "w-full px-4 py-3 rounded-xl bg-background-light border border-slate-200 focus:border-primary-DEFAULT focus:ring-2 focus:ring-primary-light/20 outline-none transition-all resize-none"), ("placeholder", .text "How can we help you?")] [] ],
      sendMessageButton ]

/-- Contact.jsx, lines 6-89: the element tree the `Contact` component renders. -/
def Contact {σ : Type} : Jsx σ :=
  .element "div" [("className", .text "pt-32 pb-20 px-4 md:px-8 max-w-7xl mx-auto")]
    [
      .element "h1" [("className", .text "text-4xl md:text-5xl font-bold text-text-primary text-center mb-12")]
        [
          .text "Contact Us" ],
      .element "div" [("className", .text "grid grid-cols-1 md:grid-cols-2 gap-12")]
        [
          .element "div" [("className", .text "space-y-8 bg-white/50 dark:bg-gray-900/50 backdrop-blur-md p-8 rounded-2xl border border-gray-200 dark:border-gray-700")]
            [
              .element "h2" [("className", .text "text-2xl font-bold text-text-primary mb-6")]
                [
                  .text "Get in Touch" ],
              .element "div" [("className", .text "flex items-start space-x-4")]
                [
                  .element "div" [("className", .text "text-primary-light mt-1")]
                    [
                      .element "Mail" [("className", .text "w-6 h-6")] [] ],
                  .element "div" []
                    [
                      .element "h3" [("className", .text "font-semibold text-text-primary")]
                        [
                          .text "Email" ],
                      .element "p" [("className", .text "text-text-secondary mt-1")]
                        [
                          .text "support@lifemonk.com" ] ] ],
              .element "div" [("className", .text "flex items-start space-x-4")]
                [
                  .element "div" [("className", .text "p-3 bg-secondary-light/10 rounded-xl text-secondary-DEFAULT")]
                    [
                      .element "Phone" [("className", .text "w-6 h-6")] [] ],
                  .element "div" []
                    [
                      .element "h3" [("className", .text "font-semibold text-text-primary")]
                        [
                          .text "Phone" ],
                      .element "p" [("className", .text "text-text-secondary mt-1")]
                        [
                          .text "+91 98765 43210" ],
                      .element "p" [("className", .text "text-sm text-text-tertiary mt-1")]
                        [
                          .text "Mon-Fri 9am-6pm IST" ] ] ],
              .element "div" [("className", .text "flex items-start space-x-4")]
                [
                  .element "div" [("className", .text "p-3 bg-accent-light/10 rounded-xl text-accent-DEFAULT")]
                    [
                      .element "MapPin" [("className", .text "w-6 h-6")] [] ],
                  .element "div" []
                    [
                      .element "h3" [("className", .text "font-semibold text-text-primary")]
                        [
                          .text "Office" ],
                      .element "p" [("className", .text "text-text-secondary mt-1")]
                        [
                          .text "Lifemonk Solutions,",
                          .element "br" [] [],
                          .text "WeWork Embassy TechVillage,",
                          .element "br" [] [],
                          .text "Outer Ring Road, Devarabisanahalli,",
                          .element "br" [] [],
                          .text "Bengaluru, Karnataka, 560103,",
                          .element "br" [] [],
                          .text "India." ] ] ] ],
          .element "div" [("className", .text "bg-white/80 dark:bg-gray-900/80 p-8 rounded-2xl shadow-lg border border-gray-200 dark:border-gray-700")]
            [
              .element "h2" [("className", .text "text-2xl font-bold text-text-primary mb-6")]
                [
                  .text "Send us a Message" ],
              contactForm ] ] ]

/-- The path of child indices from the root of `Contact` to the form. -/
def contactFormPath : List Nat := [1, 1, 1]

/-- The path of child indices from the root of `Contact` to the button. -/
def sendMessageButtonPath : List Nat := [1, 1, 1, 3]

/-- The `type` of a button element: `button` or `reset` when the `type` prop
says so, `submit` otherwise (the default of a button without a `type`). -/
def Jsx.buttonType {σ : Type} (node : Jsx σ) : String :=
  match node.props.lookup "type" with
  | some (.text "button") => "button"
  | some (.text "reset") => "reset"
  | _ => "submit"

/-- The form owner of the node at `path`: the path of its nearest proper
ancestor with tag `form`, if there is one. -/
def formOwner {σ : Type} (tree : Jsx σ) (path : List Nat) : Option (List Nat) :=
  (path.inits.reverse.drop 1).find? (fun ancestor =>
    match Jsx.descend ancestor tree with
    | some node => node.tag == "form"
    | none => false)

/-- Submitting the form at `formPath`: the `submit` event is dispatched to
the `onSubmit` handlers; unless one of them prevented the default action,
the browser submits the form, that is, it loads the page at the address
`target` of the submission afresh and the application is mounted anew. -/
def submitForm (tree : Jsx NavbarState) (formPath : List Nat) (doc : Document)
    (target : Location) (s : NavbarState) : Except JsError NavbarState :=
  let handled := dispatch "onSubmit" formPath tree s
  if handled.2 then .ok handled.1 else Navbar.reload handled.1 doc target

/-- A click on the node at `path`: the `click` event is dispatched to the
`onClick` handlers; unless one of them prevented the default action, a
submit button with a form owner submits that form, provided the form's
controls satisfy their constraints (`controlsValid`; an `email` input with a
malformed address blocks the submission). -/
def clickButton (tree : Jsx NavbarState) (path : List Nat) (controlsValid : Bool)
    (doc : Document) (target : Location) (s : NavbarState) : Except JsError NavbarState :=
  let handled := dispatch "onClick" path tree s
  if handled.2 then .ok handled.1
  else
    match Jsx.descend path tree with
    | none => .ok handled.1
    | some node =>
      if node.tag = "button" ∧ node.buttonType = "submit" then
        match formOwner tree path with
        | none => .ok handled.1
        | some formPath =>
          if controlsValid then submitForm tree formPath doc target handled.1
          else .ok handled.1
      else .ok handled.1

/-- A mounted navigation bar with theme `'system'` on a light system, not
scrolled, menu closed. -/
def sampleNavbar : NavbarState :=
  { isScrolled := false, isMobileMenuOpen := false, theme := "system",
    env := { rootClasses := ["light"], storage := none },
    prefersDark := false, viewport := { scrollY := 0, requests := [] } }

/-- The same navigation bar after the user chose the dark theme. -/
def darkNavbar : NavbarState :=
  { isScrolled := false, isMobileMenuOpen := false, theme := "dark",
    env := { rootClasses := ["dark"], storage := some "dark" },
    prefersDark := false, viewport := { scrollY := 0, requests := [] } }

/-- The dark navigation bar after the user scrolled down to offset 800 and
opened the menu. -/
def scrolledNavbar : NavbarState :=
  { isScrolled := true, isMobileMenuOpen := true, theme := "dark",
    env := { rootClasses := ["dark"], storage := some "dark" },
    prefersDark := false, viewport := { scrollY := 800, requests := [] } }

/-- The location of the contact page. -/
def contactLocation : Location :=
  { pathname := "/contact", search := "", hash := "" }

/-! ## Links, anchors and routes -/

/-- Whether the root's class list carries exactly one of the classes `light`
and `dark`: the one Tailwind's `darkMode: 'class'` (tailwind.config.js,
line 7) reads. -/
def carriesExactlyOne (classes : ClassList) : Bool :=
  classes.contains "light" != classes.contains "dark"

/-- The router's parsing of a link target into a location: the hash is the
part from the first `#` on, the search the part from the first `?` of what
precedes it, the pathname the rest. -/
def parsePath (target : String) : Location :=
  let beforeHash := target.data.takeWhile (fun c => c != '#')
  { pathname := String.mk (beforeHash.takeWhile (fun c => c != '?'))
    search := String.mk (beforeHash.dropWhile (fun c => c != '?'))
    hash := String.mk (target.data.dropWhile (fun c => c != '#')) }

/-- Whether a link target, its fragment removed, is the path of a route. -/
def resolves (target : String) : Bool :=
  (routeElement (parsePath target).pathname).isSome

/-- An entry of Navbar's `navLinks`. -/
structure NavLink where
  name : String
  href : String
  deriving DecidableEq, Repr

/-- Navbar.jsx, lines 69-75: `navLinks`. -/
def navLinks : List NavLink :=
  [ { name := "Home", href := "/" },
    { name := "Features", href := "/#features" },
    { name := "About", href := "/#about" },
    { name := "Pricing", href := "/pricing" },
    { name := "Contact", href := "/contact" } ]

/-- The `to` targets of the Links of Navbar.jsx: the logo (line 97) and one
Link per `navLinks` entry (lines 134-143). -/
def navbarLinkTargets : List String :=
  "/" :: navLinks.map (fun link => link.href)

/-- The `to` targets of the Links of Footer.jsx, in source order (lines 11,
30-33, 40-43, 50-52). -/
def footerLinkTargets : List String :=
  [ "/",
    "/#courses", "/#features", "/schools", "/pricing",
    "/#about", "/contact", "/blog", "/contact",
    "/privacy", "/terms", "/cookies" ]

/-- The `to` target of the Link of About.jsx (line 26). -/
def aboutLinkTargets : List String := ["/story"]

/-- The `to` targets of the Links of Pricing.jsx: the call to action of each
plan (line 88) and the custom-plan banner (line 115). -/
def pricingLinkTargets : List String := ["/get-started", "/contact"]

/-- The `to` targets of the Links of Schools.jsx (lines 57, 111, 117). -/
def schoolsLinkTargets : List String := ["/contact", "/contact", "/pricing"]

/-- The `to` targets of the Links of OurStory.jsx (lines 123, 129). -/
def ourStoryLinkTargets : List String := ["/contact", "/schools"]

/-- A blog post record of Blog.jsx (the `excerpt` and `image` fields, which
nothing here reads, are left out). -/
structure BlogPost where
  id : Nat
  title : String
  category : String
  author : String
  date : String
  readTime : String
  deriving DecidableEq, Repr

/-- Blog.jsx, lines 6-15: `featuredPost`. -/
def featuredPost : BlogPost :=
  { id := 1, title := "The Science Behind Gamified Learning: Why It Works",
    category := "Research", author := "Dr. Sarah Mitchell",
    date := "Jan 15, 2026", readTime := "8 min read" }

/-- Blog.jsx, lines 17-98: `blogPosts`. -/
def blogPosts : List BlogPost :=
  [ { id := 2, title := "10 Ways to Keep Your Child Engaged in Online Learning",
      category := "Parenting", author := "Emily Chen",
      date := "Jan 12, 2026", readTime := "5 min read" },
    { id := 3, title := "Building Emotional Intelligence in Children Through Play",
      category := "Development", author := "Michael Torres",
      date := "Jan 10, 2026", readTime := "6 min read" },
    { id := 4, title := "The Future of EdTech: Trends to Watch in 2026",
      category := "Technology", author := "Alex Kim",
      date := "Jan 8, 2026", readTime := "7 min read" },
    { id := 5, title := "Why Mindfulness Matters for Young Learners",
      category := "Wellness", author := "Dr. Lisa Park",
      date := "Jan 5, 2026", readTime := "4 min read" },
    { id := 6, title := "How to Choose the Right Learning App for Your Child",
      category := "Guide", author := "James Wilson",
      date := "Jan 3, 2026", readTime := "6 min read" },
    { id := 7, title := "The Power of Vocabulary: Building Strong Readers",
      category := "Education", author := "Rachel Green",
      date := "Dec 28, 2025", readTime := "5 min read" },
    { id := 8, title := "Screen Time Done Right: Quality Over Quantity",
      category := "Parenting", author := "David Brown",
      date := "Dec 25, 2025", readTime := "4 min read" },
    { id := 9, title := "Creating a Learning-Friendly Home Environment",
      category := "Tips", author := "Sophie Adams",
      date := "Dec 22, 2025", readTime := "5 min read" } ]

/-- Blog.jsx, line 100: `categories`, rendered as the filter buttons. -/
def categories : List String :=
  ["All", "Research", "Parenting", "Development", "Technology", "Wellness", "Education"]

/-- The featured post followed by the posts of the grid. -/
def allPosts : List BlogPost := featuredPost :: blogPosts

/-- The `to` targets of the Links of Blog.jsx: the template literal
`/blog/${featuredPost.id}` (line 156) and `/blog/${post.id}` for each entry
of `blogPosts` (line 192). -/
def blogLinkTargets : List String :=
  allPosts.map (fun post => "/blog/" ++ toString post.id)

/-- Every `to` target of a Link in Navbar, Footer, About, Pricing, Schools,
OurStory and Blog. -/
def linkTargets : List String :=
  navbarLinkTargets ++ footerLinkTargets ++ aboutLinkTargets ++ pricingLinkTargets ++
    schoolsLinkTargets ++ ourStoryLinkTargets ++ blogLinkTargets

/-- The posts whose category is not among the filter buttons. -/
def postsWithoutFilter : List BlogPost :=
  allPosts.filter (fun post => !categories.contains post.category)

/-! ## tailwind.config.js: the theme colours -/

/-- The table `theme.extend.colors` of tailwind.config.js (lines 10-30):
each colour family with its shade keys and values. -/
def colors : List (String × List (String × String)) :=
  [ ("primary", [("light", "#8ECAE6"), ("DEFAULT", "#1565C0"), ("dark", "#0D47A1")]),
    ("background", [("light", "var(--bg-light)"), ("cream", "var(--bg-cream)"),
                    ("white", "var(--bg-white)"), ("gray", "var(--bg-gray)")]),
    ("text", [("primary", "var(--text-primary)"), ("secondary", "var(--text-secondary)"),
              ("light", "var(--text-light)")]),
    ("button", [("lightblue", "#8ECAE6")]) ]

/-- The value the theme gives a colour family and shade, if it defines it. -/
def colorValue (family shade : String) : Option String :=
  match colors.lookup family with
  | none => none
  | some shades => shades.lookup shade

/-- The part of a class name after its last variant prefix (`hover:`,
`dark:`, `focus:`). -/
def stripVariants (name : List Char) : List Char :=
  (name.reverse.takeWhile (fun c => c != ':')).reverse

/-- The part of a class name before its opacity modifier (`/10`). -/
def stripOpacity (name : List Char) : List Char :=
  name.takeWhile (fun c => c != '/')

/-- The colour family and shade a utility class of the form
`utility-family-shade` refers to (variants and opacity set aside). -/
def classColor (className : String) : Option (String × String) :=
  match (stripOpacity (stripVariants className.data)).splitOn '-' with
  | [_, family, shade] => some (String.mk family, String.mk shade)
  | _ => none

/-- Whether the theme defines the colour a class refers to. -/
def colorDefined (className : String) : Bool :=
  match classColor className with
  | none => false
  | some (family, shade) => (colorValue family shade).isSome

/-- A class name as it occurs in a page: the file, the line and the class. -/
structure ClassUse where
  file : String
  line : Nat
  className : String
  deriving DecidableEq, Repr

/-- Occurrences, in Contact, Pricing, Schools and Blog, of classes that
refer to a colour of the theme families `primary`, `secondary`, `accent`,
`text` and `background`. -/
def themeColorUses : List ClassUse :=
  [ ⟨"Contact.jsx", 7, "text-text-primary"⟩,
    ⟨"Contact.jsx", 15, "text-primary-light"⟩,
    ⟨"Contact.jsx", 20, "text-text-secondary"⟩,
    ⟨"Contact.jsx", 25, "bg-secondary-light/10"⟩,
    ⟨"Contact.jsx", 25, "text-secondary-DEFAULT"⟩,
    ⟨"Contact.jsx", 31, "text-text-tertiary"⟩,
    ⟨"Contact.jsx", 36, "bg-accent-light/10"⟩,
    ⟨"Contact.jsx", 36, "text-accent-DEFAULT"⟩,
    ⟨"Contact.jsx", 61, "bg-background-light"⟩,
    ⟨"Pricing.jsx", 90, "hover:bg-primary-dark"⟩,
    ⟨"Pricing.jsx", 109, "bg-accent-light/10"⟩,
    ⟨"Pricing.jsx", 116, "bg-accent-DEFAULT"⟩,
    ⟨"Pricing.jsx", 116, "hover:bg-accent-dark"⟩,
    ⟨"Pricing.jsx", 116, "shadow-accent-light/30"⟩,
    ⟨"Schools.jsx", 89, "from-primary-light/5"⟩,
    ⟨"Schools.jsx", 89, "to-secondary-light/5"⟩,
    ⟨"Schools.jsx", 118, "bg-primary-dark"⟩,
    ⟨"Blog.jsx", 120, "bg-primary-light"⟩,
    ⟨"Blog.jsx", 197, "text-text-tertiary"⟩ ]

/-- The colours (family, shade) the listed classes refer to, without
repetition, in order of first occurrence. -/
def referencedColors : List (String × String) :=
  (themeColorUses.filterMap (fun use => classColor use.className)).eraseDups

/-- The referenced colours the theme does not define. -/
def undefinedColors : List (String × String) :=
  referencedColors.filter (fun c => (colorValue c.1 c.2).isNone)

/-! ## App.jsx: where the clamp of the easing engages -/

/-- The point `t* = log2(1000) / 10` at which `1.001 - 2^(-10 t)` reaches 1. -/
noncomputable def clampPoint : ℝ := Real.logb 2 1000 / 10

/-! ## Helper lemmas -/

theorem slice_hash_prefix (id : String) : slice ("#" ++ id) 1 = id := by
  simp [slice, String.data_append]

theorem getElementById_ne_empty {doc : Document} {id : String} {e : Element}
    (h : getElementById doc id = some e) : id ≠ "" := by
  intro hid
  simp [getElementById, hid] at h

theorem hash_prefix_ne_empty (id : String) : "#" ++ id ≠ "" := by
  intro h
  have hlen := congrArg String.length h
  simp only [String.length_append] at hlen
  have h1 : "#".length = 1 := by decide
  have h0 : "".length = 0 := by decide
  omega

theorem issued_append (v : Viewport) (y : Nat) (rs : List ScrollRequest) :
    issued v { scrollY := y, requests := v.requests ++ rs } = rs := by
  simp [issued]

theorem issued_self (v : Viewport) : issued v v = [] := by
  simp [issued]

theorem getElementById_id {doc : Document} {id : String} {e : Element}
    (h : getElementById doc id = some e) : e.id = id := by
  unfold getElementById at h
  split at h
  · cases h
  · have := List.find?_some h
    simpa using this

theorem hashEffect_found (doc : Document) (location : Location) (v : Viewport)
    (e : Element) (hne : location.hash ≠ "")
    (hfound : getElementById doc (slice location.hash 1) = some e) :
    hashEffect doc location v =
      .ok { scrollY := v.scrollY, requests := v.requests ++ [⟨.element e, .smooth⟩] } := by
  simp [hashEffect, hne, hfound, scrollIntoView]

theorem hashEffect_missing (doc : Document) (location : Location) (v : Viewport)
    (hnone : getElementById doc (slice location.hash 1) = none) :
    hashEffect doc location v = .ok v := by
  simp [hashEffect, hnone]

theorem hashEffect_no_hash (doc : Document) (location : Location) (v : Viewport)
    (h : location.hash = "") : hashEffect doc location v = .ok v := by
  simp [hashEffect, h]

/-! ## Navigation: reset or jump -/

/-- C1: a navigation whose hash is `#` followed by the id of an existing
element issues exactly one smooth scroll request, aimed at that element
(found by `getElementById` on the hash without its `#`), and no instant
scroll-to-top request; the viewport does not jump. -/
theorem navigate_existing_anchor (doc : Document) (location : Location) (v : Viewport)
    (id : String) (e : Element)
    (hhash : location.hash = "#" ++ id) (hfound : getElementById doc id = some e) :
    ∃ v', navigate doc location v = .ok v' ∧
      e.id = id ∧
      v'.requests = v.requests ++ [⟨.element e, .smooth⟩] ∧
      issued v v' = [⟨.element e, .smooth⟩] ∧
      countBehavior .smooth (issued v v') = 1 ∧
      countBehavior .instant (issued v v') = 0 ∧
      v'.scrollY = v.scrollY := by
  have hne : location.hash ≠ "" := by rw [hhash]; exact hash_prefix_ne_empty id
  have hs : getElementById doc (slice location.hash 1) = some e := by
    rw [hhash, slice_hash_prefix]; exact hfound
  refine ⟨{ scrollY := v.scrollY, requests := v.requests ++ [⟨.element e, .smooth⟩] },
    ?_, getElementById_id hfound, rfl, ?_, ?_, ?_, rfl⟩
  · simp only [navigate, ScrollToTop, if_neg hne]
    exact hashEffect_found doc location v e hne hs
  · exact issued_append v _ _
  · rw [issued_append]; rfl
  · rw [issued_append]; rfl

/-- C2: a navigation whose location has no fragment (empty hash) issues
exactly one instant scroll request to offset 0 and no smooth request; the
viewport is at the top afterwards. -/
theorem navigate_no_fragment (doc : Document) (location : Location) (v : Viewport)
    (hhash : location.hash = "") :
    ∃ v', navigate doc location v = .ok v' ∧
      v'.requests = v.requests ++ [⟨.offset 0, .instant⟩] ∧
      issued v v' = [⟨.offset 0, .instant⟩] ∧
      countBehavior .instant (issued v v') = 1 ∧
      countBehavior .smooth (issued v v') = 0 ∧
      v'.scrollY = 0 := by
  refine ⟨windowScrollTo 0 v, ?_, rfl, ?_, ?_, ?_, rfl⟩
  · simp only [navigate, ScrollToTop, if_pos hhash]
    exact hashEffect_no_hash doc location _ hhash
  · exact issued_append v _ _
  · unfold windowScrollTo; rw [issued_append]; rfl
  · unfold windowScrollTo; rw [issued_append]; rfl

/-- C3: when `getElementById` on the hash without its leading `#` returns
`null`, Navbar's hash effect issues no scroll request, leaves the scroll
position (indeed the whole viewport) unchanged and raises no exception. -/
theorem hashEffect_missing_anchor (doc : Document) (location : Location) (v : Viewport)
    (hnone : getElementById doc (slice location.hash 1) = none) :
    ∃ v', hashEffect doc location v = .ok v' ∧
      issued v v' = [] ∧
      v'.requests = v.requests ∧
      v'.scrollY = v.scrollY ∧
      v' = v :=
  ⟨v, hashEffect_missing doc location v hnone, issued_self v, rfl, rfl, rfl⟩

/-- C4: a navigation never issues both the reset-to-top and the
jump-to-anchor request. It raises nothing and issues at most one request in
total; exactly one when the location has no fragment or its fragment names
an existing element, and none when the fragment names no element. -/
theorem navigate_reset_or_jump (doc : Document) (location : Location) (v : Viewport) :
    ∃ v', navigate doc location v = .ok v' ∧
      v'.requests = v.requests ++ issued v v' ∧
      (issued v v').length ≤ 1 ∧
      ¬ (0 < countBehavior .instant (issued v v') ∧
         0 < countBehavior .smooth (issued v v')) ∧
      ((location.hash = "" ∨
          (getElementById doc (slice location.hash 1)).isSome) →
        (issued v v').length = 1) ∧
      ((location.hash ≠ "" ∧ getElementById doc (slice location.hash 1) = none) →
        issued v v' = [] ∧ v' = v) := by
  by_cases hhash : location.hash = ""
  · refine ⟨windowScrollTo 0 v, ?_, ?_, ?_, ?_, ?_, ?_⟩
    · simp only [navigate, ScrollToTop, if_pos hhash]
      exact hashEffect_no_hash doc location _ hhash
    · unfold windowScrollTo; rw [issued_append]
    · unfold windowScrollTo; rw [issued_append]; simp
    · unfold windowScrollTo; rw [issued_append]; simp [countBehavior]
    · intro _; unfold windowScrollTo; rw [issued_append]; rfl
    · intro h; exact absurd hhash h.1
  · cases hfind : getElementById doc (slice location.hash 1) with
    | none =>
      refine ⟨v, ?_, ?_, ?_, ?_, ?_, ?_⟩
      · simp only [navigate, ScrollToTop, if_neg hhash]
        exact hashEffect_missing doc location v hfind
      · rw [issued_self]; simp
      · rw [issued_self]; simp
      · rw [issued_self]; simp [countBehavior]
      · intro h
        rcases h with h | h
        · exact absurd h hhash
        · simp at h
      · intro _; exact ⟨issued_self v, rfl⟩
    | some e =>
      refine ⟨{ scrollY := v.scrollY, requests := v.requests ++ [⟨.element e, .smooth⟩] },
        ?_, ?_, ?_, ?_, ?_, ?_⟩
      · simp only [navigate, ScrollToTop, if_neg hhash]
        exact hashEffect_found doc location v e hhash hfind
      · rw [issued_append]
      · rw [issued_append]; simp
      · rw [issued_append]; simp [countBehavior]
      · intro _; rw [issued_append]; rfl
      · intro h; simp at h

theorem navigate_existing_anchor_witness :
    (⟨"/", "", "#features"⟩ : Location).hash = "#" ++ "features" ∧
    getElementById homeDocument "features" = some ⟨"features", 1200⟩ ∧
    ∃ v', navigate homeDocument ⟨"/", "", "#features"⟩ sampleViewport = .ok v' ∧
      (⟨"features", 1200⟩ : Element).id = "features" ∧
      v'.requests = sampleViewport.requests ++ [⟨.element ⟨"features", 1200⟩, .smooth⟩] ∧
      issued sampleViewport v' = [⟨.element ⟨"features", 1200⟩, .smooth⟩] ∧
      countBehavior .smooth (issued sampleViewport v') = 1 ∧
      countBehavior .instant (issued sampleViewport v') = 0 ∧
      v'.scrollY = sampleViewport.scrollY :=
  ⟨by decide, by decide,
    navigate_existing_anchor homeDocument ⟨"/", "", "#features"⟩ sampleViewport
      "features" ⟨"features", 1200⟩ (by decide) (by decide)⟩

theorem navigate_no_fragment_witness :
    (⟨"/pricing", "", ""⟩ : Location).hash = "" ∧
    ∃ v', navigate homeDocument ⟨"/pricing", "", ""⟩ sampleViewport = .ok v' ∧
      v'.requests = sampleViewport.requests ++ [⟨.offset 0, .instant⟩] ∧
      issued sampleViewport v' = [⟨.offset 0, .instant⟩] ∧
      countBehavior .instant (issued sampleViewport v') = 1 ∧
      countBehavior .smooth (issued sampleViewport v') = 0 ∧
      v'.scrollY = 0 :=
  ⟨by decide, navigate_no_fragment homeDocument ⟨"/pricing", "", ""⟩ sampleViewport (by decide)⟩

theorem hashEffect_missing_anchor_witness :
    getElementById homeDocument (slice (⟨"/", "", "#courses"⟩ : Location).hash 1) = none ∧
    ∃ v', hashEffect homeDocument ⟨"/", "", "#courses"⟩ sampleViewport = .ok v' ∧
      issued sampleViewport v' = [] ∧
      v'.requests = sampleViewport.requests ∧
      v'.scrollY = sampleViewport.scrollY ∧
      v' = sampleViewport :=
  ⟨by decide,
    hashEffect_missing_anchor homeDocument ⟨"/", "", "#courses"⟩ sampleViewport (by decide)⟩

theorem navigate_reset_or_jump_witness :
    ∃ v', navigate homeDocument ⟨"/", "", "#about"⟩ sampleViewport = .ok v' ∧
      (issued sampleViewport v').length = 1 := by
  obtain ⟨v', hok, _, _, _, hone, _⟩ :=
    navigate_reset_or_jump homeDocument ⟨"/", "", "#about"⟩ sampleViewport
  exact ⟨v', hok, hone (Or.inr (by decide))⟩

/-! ## The frame loop and its teardown -/

theorem raf_iterate (time : Nat) (n : Nat) (s : AppState) :
    ((raf time)^[n] s).pending = s.pending + n ∧
    ((raf time)^[n] s).rafInvocations = s.rafInvocations + n ∧
    ((raf time)^[n] s).lenis.destroyed = s.lenis.destroyed ∧
    ((raf time)^[n] s).lenis.rafLog =
      s.lenis.rafLog ++ List.replicate n (time, s.lenis.destroyed) := by
  induction n with
  | zero => simp
  | succ k ih =>
    obtain ⟨h1, h2, h3, h4⟩ := ih
    rw [Function.iterate_succ_apply']
    refine ⟨?_, ?_, ?_, ?_⟩
    · simp only [raf, requestAnimationFrame, h1]; omega
    · simp only [raf, requestAnimationFrame, h2]; omega
    · simp only [raf, requestAnimationFrame, Lenis.raf, h3]
    · simp only [raf, requestAnimationFrame, Lenis.raf, h3, h4, List.append_assoc,
        List.replicate_succ']

theorem displayRefresh_single (time : Nat) (s : AppState) (hp : s.pending = 1) :
    (displayRefresh time s).pending = 1 ∧
    (displayRefresh time s).rafInvocations = s.rafInvocations + 1 ∧
    (displayRefresh time s).lenis.destroyed = s.lenis.destroyed ∧
    (displayRefresh time s).lenis.rafLog = s.lenis.rafLog ++ [(time, s.lenis.destroyed)] := by
  obtain ⟨h1, h2, h3, h4⟩ := raf_iterate time s.pending { s with pending := 0 }
  unfold displayRefresh
  rw [hp] at h1 h2 h3 h4 ⊢
  exact ⟨by simpa using h1, by simpa using h2, by simpa using h3, by simpa using h4⟩

theorem refreshes_single (times : List Nat) (s : AppState) (hp : s.pending = 1) :
    (refreshes times s).pending = 1 ∧
    (refreshes times s).rafInvocations = s.rafInvocations + times.length ∧
    (refreshes times s).lenis.destroyed = s.lenis.destroyed ∧
    (refreshes times s).lenis.rafLog =
      s.lenis.rafLog ++ times.map (fun t => (t, s.lenis.destroyed)) := by
  induction times generalizing s with
  | nil => simp [refreshes, hp]
  | cons t ts ih =>
    obtain ⟨h1, h2, h3, h4⟩ := displayRefresh_single t s hp
    obtain ⟨g1, g2, g3, g4⟩ := ih (displayRefresh t s) h1
    have hstep : refreshes (t :: ts) s = refreshes ts (displayRefresh t s) := rfl
    rw [hstep]
    refine ⟨g1, ?_, ?_, ?_⟩
    · rw [g2, h2, List.length_cons]; omega
    · rw [g3, h3]
    · rw [g4, h4, h3]; simp

theorem teardown_pending (s : AppState) : (teardown s).pending = s.pending := rfl

/-- C5: the cleanup of App's effect does not stop the frame loop. At the
failing input (mount, cleanup, one display refresh at timestamp 16) `raf`
runs once more, calls `lenis.raf(16)` on the destroyed instance and queues
itself again. In general, after any refreshes `before` the cleanup and any
refreshes `after` it, `raf` has run once per refresh, every call after the
cleanup reached the destroyed instance, and one callback is still pending.
Running the cleanup a second time changes nothing. -/
theorem raf_loop_survives_teardown :
    ((refreshes [16] (teardown mount)).rafInvocations = 1 ∧
      (refreshes [16] (teardown mount)).lenis.rafLog = [(16, true)] ∧
      (refreshes [16] (teardown mount)).pending = 1) ∧
    (∀ before after : List Nat,
      (refreshes after (teardown (refreshes before mount))).rafInvocations =
        before.length + after.length ∧
      (refreshes after (teardown (refreshes before mount))).lenis.rafLog =
        before.map (fun t => (t, false)) ++ after.map (fun t => (t, true)) ∧
      (refreshes after (teardown (refreshes before mount))).pending = 1) ∧
    (∀ s : AppState, teardown (teardown s) = teardown s) := by
  refine ⟨by decide, ?_, fun s => rfl⟩
  intro before after
  obtain ⟨h1, h2, h3, h4⟩ := refreshes_single before mount rfl
  have hp : (teardown (refreshes before mount)).pending = 1 := by
    rw [teardown_pending]; exact h1
  obtain ⟨g1, g2, _, g4⟩ := refreshes_single after (teardown (refreshes before mount)) hp
  refine ⟨?_, ?_, g1⟩
  · rw [g2]
    show (refreshes before mount).rafInvocations + after.length = _
    rw [h2]; simp [mount, requestAnimationFrame]
  · rw [g4]
    show (refreshes before mount).lenis.rafLog ++ _ = _
    rw [h4]
    simp [mount, requestAnimationFrame, Lenis.new, teardown, Lenis.destroy]

/-! ## The easing and the interpolation -/

theorem pow_neg_le_one (t : ℝ) (ht : 0 ≤ t) : (2 : ℝ) ^ (-10 * t) ≤ 1 :=
  Real.rpow_le_one_of_one_le_of_nonpos (by norm_num) (by linarith)

theorem clamp_reached_at_one : easing 1 = 1 := by
  unfold easing
  norm_num

theorem easing_mono_all (s t : ℝ) (h : s ≤ t) : easing s ≤ easing t := by
  unfold easing
  have hp : (2 : ℝ) ^ (-10 * t) ≤ (2 : ℝ) ^ (-10 * s) :=
    Real.rpow_le_rpow_of_exponent_le (by norm_num) (by linarith)
  exact min_le_min le_rfl (by linarith)

theorem duration_pos : 0 < duration := by
  unfold duration
  norm_num

theorem interpolate_done (s T elapsed : ℝ) (h : duration ≤ elapsed) :
    interpolate s T elapsed = T := by
  have hq : 1 ≤ elapsed / duration := by
    rw [le_div_iff₀ duration_pos]; linarith
  unfold interpolate
  rw [min_eq_left hq, clamp_reached_at_one]
  ring

theorem simulate_succ (n : Nat) (a : Animation) :
    simulate (n + 1) a = onFrame (duration / 60) (simulate n a) := by
  unfold simulate
  rw [Function.iterate_succ_apply']

theorem simulate_fields (n : Nat) (a : Animation) :
    (simulate n a).start = a.start ∧ (simulate n a).target = a.target ∧
    (simulate n a).elapsed = a.elapsed + n * (duration / 60) := by
  induction n with
  | zero => simp [simulate]
  | succ k ih =>
    obtain ⟨h1, h2, h3⟩ := ih
    rw [simulate_succ]
    refine ⟨h1, h2, ?_⟩
    show (simulate k a).elapsed + duration / 60 = _
    rw [h3]; push_cast; ring

theorem simulate_offset (n : Nat) (a : Animation) :
    (simulate (n + 1) a).offset =
      interpolate a.start a.target (a.elapsed + (n + 1 : ℕ) * (duration / 60)) := by
  obtain ⟨h1, h2, h3⟩ := simulate_fields n a
  rw [simulate_succ]
  show interpolate (simulate n a).start (simulate n a).target
    ((simulate n a).elapsed + duration / 60) = _
  rw [h1, h2, h3]; push_cast; congr 1; ring

theorem simulate_done (n : Nat) (hn : 60 ≤ n) (s T : ℝ) :
    (simulate n (requestScrollTo s T)).offset = T := by
  obtain ⟨k, rfl⟩ : ∃ k, n = k + 1 := ⟨n - 1, by omega⟩
  rw [simulate_offset]
  show interpolate s T _ = T
  apply interpolate_done
  have hk : (60 : ℝ) ≤ ((k + 1 : ℕ) : ℝ) := by exact_mod_cast hn
  have hd := duration_pos
  simp only [requestScrollTo, zero_add]
  nlinarith

/-- C6: with duration 1.2 and the configured easing, a smooth scroll from
any start `s` to any target `T` converges to `T`: after 60 frame steps of
`duration / 60` each the offset equals `T`, after 120 steps toward 800 it is
within 1px of 800, for every elapsed time at or beyond the duration the
interpolated offset equals `T`, and so does the offset after any number of
steps from 60 on. -/
theorem smooth_scroll_converges (s T : ℝ) :
    (simulate 60 (requestScrollTo s T)).offset = T ∧
    |(simulate 120 (requestScrollTo s 800)).offset - 800| < 1 ∧
    (∀ elapsed : ℝ, duration ≤ elapsed → interpolate s T elapsed = T) ∧
    (∀ n : Nat, 60 ≤ n → (simulate n (requestScrollTo s T)).offset = T) := by
  refine ⟨simulate_done 60 le_rfl s T, ?_, fun e he => interpolate_done s T e he,
    fun n hn => simulate_done n hn s T⟩
  rw [simulate_done 120 (by norm_num) s 800]
  norm_num

theorem smooth_scroll_converges_witness :
    duration ≤ 2 ∧ interpolate 0 800 2 = 800 ∧ 60 ≤ 90 ∧
    (simulate 90 (requestScrollTo 0 800)).offset = 800 :=
  ⟨by unfold duration; norm_num,
    (smooth_scroll_converges 0 800).2.2.1 2 (by unfold duration; norm_num),
    by decide,
    (smooth_scroll_converges 0 800).2.2.2 90 (by decide)⟩

/-- C7 (as stated, refuted): the configured easing does not vanish at 0. -/
theorem easing_zero_ne_zero : ¬ (easing 0 = 0) := by
  unfold easing
  norm_num

/-- C7 (amended): the configured easing takes the value 0.001 at 0. -/
theorem easing_zero_eq : easing 0 = 0.001 := by
  unfold easing
  norm_num

/-- C8: the configured easing satisfies the boundary condition `e(1) = 1`. -/
theorem easing_one : easing 1 = 1 := by
  unfold easing
  norm_num

/-- C9: the configured easing is monotonic on `[0, 1]`: for all real `s`,
`t` with `0 ≤ s ≤ t ≤ 1`, `e(s) ≤ e(t)`. -/
theorem easing_monotone (s t : ℝ) (_hs : 0 ≤ s) (hst : s ≤ t) (_ht : t ≤ 1) :
    easing s ≤ easing t :=
  easing_mono_all s t hst

theorem easing_monotone_witness :
    (0 : ℝ) ≤ 0 ∧ (0 : ℝ) ≤ 1 ∧ (1 : ℝ) ≤ 1 ∧ easing 0 ≤ easing 1 :=
  ⟨le_rfl, zero_le_one, le_rfl, easing_monotone 0 1 le_rfl zero_le_one le_rfl⟩

/-- C10: the configured easing maps `[0, 1]` into `[0, 1]`: for every real
`t` with `0 ≤ t ≤ 1`, `0 ≤ e(t) ≤ 1`. -/
theorem easing_range (t : ℝ) (ht0 : 0 ≤ t) (_ht1 : t ≤ 1) :
    0 ≤ easing t ∧ easing t ≤ 1 := by
  unfold easing
  have hp := pow_neg_le_one t ht0
  refine ⟨le_min zero_le_one (by linarith), min_le_left _ _⟩

theorem easing_range_witness :
    (0 : ℝ) ≤ 1 ∧ (1 : ℝ) ≤ 1 ∧ 0 ≤ easing 1 ∧ easing 1 ≤ 1 :=
  ⟨zero_le_one, le_rfl, easing_range 1 zero_le_one le_rfl⟩

/-! ## The theme preference -/

theorem mem_classListRemove (tokens : List String) (classes : ClassList) (x : String) :
    x ∈ classListRemove tokens classes ↔ x ∈ classes ∧ x ∉ tokens := by
  simp [classListRemove]

theorem classListAdd_mem (token : String) (classes : ClassList)
    (hne : token ≠ "") (hws : token.data.any isAsciiWhitespace = false) :
    ∃ added, classListAdd token classes = .ok added ∧
      ∀ x, x ∈ added ↔ x ∈ classes ∨ x = token := by
  refine ⟨if classes.contains token then classes else classes ++ [token], ?_, ?_⟩
  · simp only [classListAdd, if_neg hne, hws]
    rfl
  · intro x
    by_cases hc : classes.contains token = true
    · rw [if_pos hc]
      have hmem : token ∈ classes := by simpa using hc
      constructor
      · intro h; exact Or.inl h
      · intro h
        rcases h with h | h
        · exact h
        · rw [h]; exact hmem
    · rw [if_neg hc]
      simp

theorem setThemeClass (token : String) (h : token = "light" ∨ token = "dark")
    (classes : ClassList) :
    ∃ added, classListAdd token (classListRemove ["light", "dark"] classes) = .ok added ∧
      ∀ x, x ∈ added ↔ (x ∈ classes ∧ x ≠ "light" ∧ x ≠ "dark") ∨ x = token := by
  have hne : token ≠ "" := by rcases h with h | h <;> rw [h] <;> decide
  have hws : token.data.any isAsciiWhitespace = false := by
    rcases h with h | h <;> rw [h] <;> decide
  obtain ⟨added, hadd, hmem⟩ :=
    classListAdd_mem token (classListRemove ["light", "dark"] classes) hne hws
  refine ⟨added, hadd, ?_⟩
  intro x
  rw [hmem, mem_classListRemove]
  simp

theorem themeEffect_system (prefersDark : Bool) (env : ThemeEnv) :
    ∃ added, themeEffect "system" prefersDark env =
        .ok { rootClasses := added, storage := env.storage } ∧
      ∀ x, x ∈ added ↔ (x ∈ env.rootClasses ∧ x ≠ "light" ∧ x ≠ "dark") ∨
        x = (if prefersDark then "dark" else "light") := by
  have htok : (if prefersDark then "dark" else "light") = "light" ∨
      (if prefersDark then "dark" else "light") = "dark" := by
    cases prefersDark
    · exact Or.inl rfl
    · exact Or.inr rfl
  obtain ⟨added, hadd, hmem⟩ := setThemeClass _ htok env.rootClasses
  refine ⟨added, ?_, hmem⟩
  simp only [themeEffect, if_pos, hadd]

theorem themeEffect_explicit (theme : String) (h : theme = "light" ∨ theme = "dark")
    (prefersDark : Bool) (env : ThemeEnv) :
    ∃ added, themeEffect theme prefersDark env =
        .ok { rootClasses := added, storage := some theme } ∧
      ∀ x, x ∈ added ↔ (x ∈ env.rootClasses ∧ x ≠ "light" ∧ x ≠ "dark") ∨ x = theme := by
  have hns : theme ≠ "system" := by rcases h with h | h <;> rw [h] <;> decide
  obtain ⟨added, hadd, hmem⟩ := setThemeClass theme h env.rootClasses
  refine ⟨added, ?_, hmem⟩
  simp only [themeEffect, if_neg hns, hadd]

theorem toggleTheme_isThemeValue (theme : String) : isThemeValue (toggleTheme theme) = true := by
  unfold toggleTheme
  split
  · decide
  · split <;> decide

theorem initialTheme_of_nonempty (stored : String) (h : stored ≠ "") :
    initialTheme (some stored) = stored := by
  simp [initialTheme, h]

/-- C11: the theme `'system'` does not survive a reload once another theme
has been stored. With `'dark'` under the storage key, the theme effect run
with theme `'system'` leaves the key at `'dark'`, and loading the theme
again yields `'dark'`. The situation is reached from a first visit by three
clicks on the theme button (light, dark, system) followed by a reload. The
themes `'light'` and `'dark'` do survive, whatever the key held before. -/
theorem system_theme_lost_on_reload :
    (themeEffect "system" false { rootClasses := ["dark"], storage := some "dark" } =
        .ok { rootClasses := ["light"], storage := some "dark" } ∧
      initialTheme (some "dark") = "dark") ∧
    (∃ s0 s1 s2,
      Navbar.mount none [] false homeDocument ⟨"/", "", ""⟩ ⟨0, []⟩ = .ok s0 ∧
      Navbar.run [.themeClick, .themeClick, .themeClick] s0 = .ok s1 ∧
      s1.theme = "system" ∧ s1.env.storage = some "dark" ∧
      Navbar.reload s1 homeDocument ⟨"/", "", ""⟩ = .ok s2 ∧
      s2.theme = "dark") ∧
    (∀ (prefersDark : Bool) (env : ThemeEnv),
      (∃ env', themeEffect "light" prefersDark env = .ok env' ∧
        initialTheme env'.storage = "light") ∧
      (∃ env', themeEffect "dark" prefersDark env = .ok env' ∧
        initialTheme env'.storage = "dark")) := by
  refine ⟨⟨rfl, rfl⟩, ?_, ?_⟩
  · exact ⟨{ isScrolled := false, isMobileMenuOpen := false, theme := "system",
             env := { rootClasses := ["light"], storage := none },
             prefersDark := false, viewport := ⟨0, []⟩ },
           { isScrolled := false, isMobileMenuOpen := false, theme := "system",
             env := { rootClasses := ["light"], storage := some "dark" },
             prefersDark := false, viewport := ⟨0, []⟩ },
           { isScrolled := false, isMobileMenuOpen := false, theme := "dark",
             env := { rootClasses := ["dark"], storage := some "dark" },
             prefersDark := false, viewport := ⟨0, []⟩ },
           rfl, rfl, rfl, rfl, rfl, rfl⟩
  · intro prefersDark env
    obtain ⟨a1, h1, _⟩ := themeEffect_explicit "light" (Or.inl rfl) prefersDark env
    obtain ⟨a2, h2, _⟩ := themeEffect_explicit "dark" (Or.inr rfl) prefersDark env
    exact ⟨⟨_, h1, rfl⟩, ⟨_, h2, rfl⟩⟩

/-- C12 (as stated, refuted): with the string `blue` under the storage key
and no toggle, the theme state is `blue`, none of light, dark, system. -/
theorem stored_theme_not_validated :
    ¬ (∀ (stored : Storage) (n : Nat),
        isThemeValue (toggleTheme^[n] (initialTheme stored)) = true) := by
  intro h
  exact absurd (h (some "blue") 0) (by decide)

/-- C12 (amended): after at least one `toggleTheme` call the theme state is
one of light, dark, system, whatever the storage key held; with no call it
is one of them when the key is absent, empty or holds one of the three
values. -/
theorem theme_state_enumerated (stored : Storage) (n : Nat) :
    (0 < n → isThemeValue (toggleTheme^[n] (initialTheme stored)) = true) ∧
    ((stored = none ∨ stored = some "" ∨ stored = some "light" ∨
        stored = some "dark" ∨ stored = some "system") →
      isThemeValue (toggleTheme^[n] (initialTheme stored)) = true) := by
  have hpos : ∀ m : Nat, ∀ t : String, isThemeValue (toggleTheme^[m + 1] t) = true := by
    intro m t
    rw [Function.iterate_succ_apply']
    exact toggleTheme_isThemeValue _
  constructor
  · intro hn
    obtain ⟨m, rfl⟩ : ∃ m, n = m + 1 := ⟨n - 1, by omega⟩
    exact hpos m _
  · intro hs
    cases n with
    | succ m => exact hpos m _
    | zero =>
      rcases hs with h | h | h | h | h <;> rw [h] <;> decide

theorem theme_state_enumerated_witness :
    0 < 1 ∧ isThemeValue (toggleTheme^[1] (initialTheme (some "blue"))) = true ∧
    (some "dark" : Storage) = some "dark" ∧
    isThemeValue (toggleTheme^[0] (initialTheme (some "dark"))) = true :=
  ⟨by decide, (theme_state_enumerated (some "blue") 1).1 (by decide), rfl,
    (theme_state_enumerated (some "dark") 0).2 (Or.inr (Or.inr (Or.inr (Or.inl rfl))))⟩

/-- C13: load-on-start. The initial theme state is the value stored under
the `'theme'` key when that value is a non-empty string, and `'system'`
when the key is absent or holds the empty string. -/
theorem initialTheme_load :
    (∀ stored : String, stored ≠ "" → initialTheme (some stored) = stored) ∧
    initialTheme none = "system" ∧
    initialTheme (some "") = "system" :=
  ⟨initialTheme_of_nonempty, rfl, rfl⟩

theorem initialTheme_load_witness :
    "dark" ≠ "" ∧ initialTheme (some "dark") = "dark" :=
  ⟨by decide, initialTheme_load.1 "dark" (by decide)⟩

/-- C14: after the theme effect runs with theme `t` and system preference
`p`, the root carries the class `t` and not the other one when `t` is light
or dark (whatever `p`); it carries `dark` and not `light` when `t` is system
and `p` holds, `light` and not `dark` when `t` is system and `p` fails. The
effect raises nothing in these cases, whatever classes the root had. -/
theorem themeEffect_effective_class (prefersDark : Bool) (env : ThemeEnv) :
    (∃ env', themeEffect "light" prefersDark env = .ok env' ∧
      "light" ∈ env'.rootClasses ∧ "dark" ∉ env'.rootClasses) ∧
    (∃ env', themeEffect "dark" prefersDark env = .ok env' ∧
      "dark" ∈ env'.rootClasses ∧ "light" ∉ env'.rootClasses) ∧
    (∃ env', themeEffect "system" prefersDark env = .ok env' ∧
      ("dark" ∈ env'.rootClasses ↔ prefersDark = true) ∧
      ("light" ∈ env'.rootClasses ↔ prefersDark = false)) := by
  refine ⟨?_, ?_, ?_⟩
  · obtain ⟨added, h, hmem⟩ := themeEffect_explicit "light" (Or.inl rfl) prefersDark env
    refine ⟨_, h, ?_, ?_⟩
    · exact (hmem "light").2 (Or.inr rfl)
    · intro hd
      have := (hmem "dark").1 hd
      simp at this
  · obtain ⟨added, h, hmem⟩ := themeEffect_explicit "dark" (Or.inr rfl) prefersDark env
    refine ⟨_, h, ?_, ?_⟩
    · exact (hmem "dark").2 (Or.inr rfl)
    · intro hd
      have := (hmem "light").1 hd
      simp at this
  · obtain ⟨added, h, hmem⟩ := themeEffect_system prefersDark env
    refine ⟨_, h, ?_, ?_⟩
    · show "dark" ∈ added ↔ _
      rw [hmem]
      cases prefersDark <;> simp
    · show "light" ∈ added ↔ _
      rw [hmem]
      cases prefersDark <;> simp

/-- C20: run with theme `'system'`, the theme effect leaves client storage
as it was; whenever the effect changes the value under the key the theme is
not `'system'`, and for every other theme a completed effect has stored that
theme. -/
theorem themeEffect_system_keeps_storage (prefersDark : Bool) (env : ThemeEnv) :
    (∃ env', themeEffect "system" prefersDark env = .ok env' ∧
      env'.storage = env.storage) ∧
    (∀ (theme : String) (env' : ThemeEnv),
      themeEffect theme prefersDark env = .ok env' → env'.storage ≠ env.storage →
      theme ≠ "system") ∧
    (∀ (theme : String) (env' : ThemeEnv),
      theme ≠ "system" → themeEffect theme prefersDark env = .ok env' →
      env'.storage = some theme) := by
  obtain ⟨added, hsys, _⟩ := themeEffect_system prefersDark env
  refine ⟨⟨_, hsys, rfl⟩, ?_, ?_⟩
  · intro theme env' hrun hchanged htheme
    rw [htheme, hsys] at hrun
    injection hrun with heq
    exact hchanged (by rw [← heq])
  · intro theme env' hns hrun
    simp only [themeEffect, if_neg hns] at hrun
    cases hadd : classListAdd theme (classListRemove ["light", "dark"] env.rootClasses) with
    | error err => rw [hadd] at hrun; cases hrun
    | ok cl =>
      rw [hadd] at hrun
      injection hrun with heq
      rw [← heq]

theorem themeEffect_system_keeps_storage_witness :
    "dark" ≠ "system" ∧
    themeEffect "dark" false { rootClasses := [], storage := none } =
      .ok { rootClasses := ["dark"], storage := some "dark" } ∧
    (some "dark" : Storage) ≠ none ∧
    (⟨["dark"], some "dark"⟩ : ThemeEnv).storage = some "dark" :=
  ⟨by decide, rfl, by decide,
    (themeEffect_system_keeps_storage false { rootClasses := [], storage := none }).2.2
      "dark" ⟨["dark"], some "dark"⟩ (by decide) rfl⟩

/-! ## The navigation bar's events -/

theorem handleChange_system (mediaMatches : Bool) (classes : ClassList) :
    ∃ added, handleChange "system" mediaMatches classes = .ok added ∧
      ("dark" ∈ added ↔ mediaMatches = true) ∧
      ("light" ∈ added ↔ mediaMatches = false) := by
  have htok : (if mediaMatches then "dark" else "light") = "light" ∨
      (if mediaMatches then "dark" else "light") = "dark" := by
    cases mediaMatches
    · exact Or.inl rfl
    · exact Or.inr rfl
  obtain ⟨added, hadd, hmem⟩ := setThemeClass _ htok classes
  refine ⟨added, ?_, ?_, ?_⟩
  · simp only [handleChange, if_pos, hadd]
  · rw [hmem]; cases mediaMatches <;> simp
  · rw [hmem]; cases mediaMatches <;> simp

theorem step_preferenceChange_system (s : NavbarState) (mediaMatches : Bool)
    (h : s.theme = "system") :
    ∃ added, Navbar.step (.preferenceChange mediaMatches) s =
        .ok { s with prefersDark := mediaMatches
                     env := { s.env with rootClasses := added } } ∧
      ("dark" ∈ added ↔ mediaMatches = true) ∧
      ("light" ∈ added ↔ mediaMatches = false) := by
  obtain ⟨added, hadd, hd, hl⟩ := handleChange_system mediaMatches s.env.rootClasses
  refine ⟨added, ?_, hd, hl⟩
  simp only [Navbar.step, mediaQueryEffect, h, ne_eq, not_true_eq_false, if_false, hadd]

theorem step_preferenceChange_other (s : NavbarState) (mediaMatches : Bool)
    (h : s.theme ≠ "system") :
    Navbar.step (.preferenceChange mediaMatches) s =
      .ok { s with prefersDark := mediaMatches } := by
  simp only [Navbar.step, mediaQueryEffect, ne_eq, h, not_false_eq_true, if_true]

/-- C15: a change of the system colour-scheme preference re-derives the
effective theme exactly when the theme is `'system'`. With theme `'system'`
a listener is registered, and after a change event with `matches = m` the
root carries `dark` iff `m` and `light` iff not `m`. With any other theme
(light and dark among them) no listener is registered and the change leaves
the root's classes as they were. Either way nothing is raised. -/
theorem preferenceChange_rederives (s : NavbarState) (m : Bool) :
    (s.theme = "system" →
      (mediaQueryEffect s.theme).isSome = true ∧
      ∃ s', Navbar.step (.preferenceChange m) s = .ok s' ∧
        ("dark" ∈ s'.env.rootClasses ↔ m = true) ∧
        ("light" ∈ s'.env.rootClasses ↔ m = false)) ∧
    ((s.theme = "light" ∨ s.theme = "dark") →
      (mediaQueryEffect s.theme).isNone = true ∧
      ∃ s', Navbar.step (.preferenceChange m) s = .ok s' ∧
        s'.env.rootClasses = s.env.rootClasses) ∧
    (s.theme ≠ "system" →
      (mediaQueryEffect s.theme).isNone = true ∧
      ∃ s', Navbar.step (.preferenceChange m) s = .ok s' ∧
        s'.env.rootClasses = s.env.rootClasses) := by
  have hother : s.theme ≠ "system" →
      (mediaQueryEffect s.theme).isNone = true ∧
      ∃ s', Navbar.step (.preferenceChange m) s = .ok s' ∧
        s'.env.rootClasses = s.env.rootClasses := by
    intro h
    refine ⟨?_, _, step_preferenceChange_other s m h, rfl⟩
    simp [mediaQueryEffect, h]
  refine ⟨?_, ?_, hother⟩
  · intro h
    obtain ⟨added, hstep, hd, hl⟩ := step_preferenceChange_system s m h
    refine ⟨?_, _, hstep, hd, hl⟩
    simp [mediaQueryEffect, h]
  · intro h
    apply hother
    rcases h with h | h <;> rw [h] <;> decide

/-- C16: the theme state is changed by the click on the theme button only.
Every other event of the navigation bar (scroll, location change, hamburger
click, nav-link click, logo click, system preference change) is handled
without an error and leaves the theme state as it was. -/
theorem theme_changed_only_by_toggle (event : NavbarEvent) (s : NavbarState)
    (h : event ≠ .themeClick) :
    ∃ s', Navbar.step event s = .ok s' ∧ s'.theme = s.theme := by
  cases event with
  | scroll scrollY => exact ⟨_, rfl, rfl⟩
  | locationChange doc location =>
    by_cases hhash : location.hash = ""
    · refine ⟨s, ?_, rfl⟩
      simp only [Navbar.step, hashEffect_no_hash doc location s.viewport hhash]
    · cases hfind : getElementById doc (slice location.hash 1) with
      | none =>
        refine ⟨s, ?_, rfl⟩
        simp only [Navbar.step, hashEffect_missing doc location s.viewport hfind]
      | some e =>
        refine ⟨{ s with viewport :=
            { scrollY := s.viewport.scrollY
              requests := s.viewport.requests ++ [⟨.element e, .smooth⟩] } }, ?_, rfl⟩
        simp only [Navbar.step, hashEffect_found doc location s.viewport e hhash hfind]
  | hamburgerClick => exact ⟨_, rfl, rfl⟩
  | navLinkClick => exact ⟨_, rfl, rfl⟩
  | logoClick => exact ⟨_, rfl, rfl⟩
  | themeClick => exact absurd rfl h
  | preferenceChange mediaMatches =>
    by_cases hsys : s.theme = "system"
    · obtain ⟨added, hstep, _, _⟩ := step_preferenceChange_system s mediaMatches hsys
      exact ⟨_, hstep, rfl⟩
    · exact ⟨_, step_preferenceChange_other s mediaMatches hsys, rfl⟩

theorem preferenceChange_rederives_witness :
    sampleNavbar.theme = "system" ∧
    (darkNavbar.theme = "light" ∨ darkNavbar.theme = "dark") ∧
    darkNavbar.theme ≠ "system" ∧
    ((mediaQueryEffect sampleNavbar.theme).isSome = true ∧
      ∃ s', Navbar.step (.preferenceChange true) sampleNavbar = .ok s' ∧
        ("dark" ∈ s'.env.rootClasses ↔ true = true) ∧
        ("light" ∈ s'.env.rootClasses ↔ true = false)) ∧
    ((mediaQueryEffect darkNavbar.theme).isNone = true ∧
      ∃ s', Navbar.step (.preferenceChange false) darkNavbar = .ok s' ∧
        s'.env.rootClasses = darkNavbar.env.rootClasses) ∧
    ((mediaQueryEffect darkNavbar.theme).isNone = true ∧
      ∃ s', Navbar.step (.preferenceChange true) darkNavbar = .ok s' ∧
        s'.env.rootClasses = darkNavbar.env.rootClasses) :=
  ⟨rfl, Or.inr rfl, by decide,
    (preferenceChange_rederives sampleNavbar true).1 rfl,
    (preferenceChange_rederives darkNavbar false).2.1 (Or.inr rfl),
    (preferenceChange_rederives darkNavbar true).2.2 (by decide)⟩

theorem theme_changed_only_by_toggle_witness :
    NavbarEvent.scroll 100 ≠ NavbarEvent.themeClick ∧
    ∃ s', Navbar.step (.scroll 100) darkNavbar = .ok s' ∧ s'.theme = darkNavbar.theme :=
  ⟨by decide, theme_changed_only_by_toggle (.scroll 100) darkNavbar (by decide)⟩

/-! ## The route table -/

/-- C17: the route table of App is a function covering the routed pages. Its
nine paths, in source order, are pairwise distinct; each maps to its page
component; and every page component is the target of exactly one path. -/
theorem routes_cover_pages :
    routes.map (fun r => r.1) =
      ["/", "/contact", "/pricing", "/schools", "/blog", "/story",
       "/privacy", "/terms", "/cookies"] ∧
    (routes.map (fun r => r.1)).Nodup ∧
    routeElement "/" = some .Home ∧
    routeElement "/contact" = some .Contact ∧
    routeElement "/pricing" = some .Pricing ∧
    routeElement "/schools" = some .Schools ∧
    routeElement "/blog" = some .Blog ∧
    routeElement "/story" = some .OurStory ∧
    routeElement "/privacy" = some .PrivacyPolicy ∧
    routeElement "/terms" = some .TermsOfService ∧
    routeElement "/cookies" = some .CookiePolicy ∧
    (∀ page : PageComponent, ∃ path, pathsTo page = [path] ∧
      routeElement path = some page) := by
  refine ⟨rfl, by decide, rfl, rfl, rfl, rfl, rfl, rfl, rfl, rfl, rfl, ?_⟩
  intro page
  cases page
  · exact ⟨"/", rfl, rfl⟩
  · exact ⟨"/pricing", rfl, rfl⟩
  · exact ⟨"/schools", rfl, rfl⟩
  · exact ⟨"/blog", rfl, rfl⟩
  · exact ⟨"/story", rfl, rfl⟩
  · exact ⟨"/contact", rfl, rfl⟩
  · exact ⟨"/privacy", rfl, rfl⟩
  · exact ⟨"/terms", rfl, rfl⟩
  · exact ⟨"/cookies", rfl, rfl⟩

/-! ## The contact form -/

theorem handlerOf_none {σ : Type} (name : String) (props : List (String × PropValue σ))
    (h : props.any (fun p => p.2.isHandler) = false) : handlerOf name props = none := by
  induction props with
  | nil => rfl
  | cons p ps ih =>
    simp only [List.any_cons, Bool.or_eq_false_iff] at h
    obtain ⟨hp, hps⟩ := h
    unfold handlerOf
    rw [List.findSome?_cons]
    have hhead : (if p.1 = name then
        (match p.2 with
          | .handler run => some run
          | .text _ => none)
        else none) = (none : Option (σ → σ × Bool)) := by
      split
      · cases hv : p.2 with
        | text v => rfl
        | handler run => rw [hv] at hp; cases hp
      · rfl
    rw [hhead]
    exact ih hps

theorem hasHandlerList_mem {σ : Type} (children : List (Jsx σ))
    (h : Jsx.hasHandlerList children = false) (child : Jsx σ) (hc : child ∈ children) :
    child.hasHandler = false := by
  induction children with
  | nil => cases hc
  | cons c cs ih =>
    rw [Jsx.hasHandlerList, Bool.or_eq_false_iff] at h
    rcases List.mem_cons.1 hc with hc | hc
    · rw [hc]; exact h.1
    · exact ih h.2 hc

theorem hasHandler_parts {σ : Type} (node : Jsx σ) (h : node.hasHandler = false) :
    node.props.any (fun p => p.2.isHandler) = false ∧
    ∀ child ∈ node.children, child.hasHandler = false := by
  cases node with
  | text content => exact ⟨rfl, fun child hc => by cases hc⟩
  | element tag props children =>
    rw [Jsx.hasHandler, Bool.or_eq_false_iff] at h
    exact ⟨h.1, hasHandlerList_mem children h.2⟩

theorem dispatch_no_handler {σ : Type} (name : String) (path : List Nat) :
    ∀ (node : Jsx σ) (s : σ), node.hasHandler = false →
      dispatch name path node s = (s, false) := by
  induction path with
  | nil =>
    intro node s h
    rw [dispatch, handlerOf_none name node.props (hasHandler_parts node h).1]
  | cons i rest ih =>
    intro node s h
    obtain ⟨hprops, hchildren⟩ := hasHandler_parts node h
    rw [dispatch]
    cases hget : node.children.get? i with
    | none => rfl
    | some child =>
      have hmem : child ∈ node.children := List.get?_mem hget
      simp only [handlerOf_none name node.props hprops]
      exact ih child s (hchildren child hmem)

theorem contact_hasHandler (σ : Type) : (Contact : Jsx σ).hasHandler = false := rfl

theorem contact_submitForm (doc : Document) (target : Location) (s : NavbarState) :
    submitForm Contact contactFormPath doc target s = Navbar.reload s doc target := by
  unfold submitForm
  rw [dispatch_no_handler "onSubmit" contactFormPath Contact s (contact_hasHandler _)]
  rfl

theorem contact_clickButton (controlsValid : Bool) (doc : Document) (target : Location)
    (s : NavbarState) :
    clickButton Contact sendMessageButtonPath controlsValid doc target s =
      if controlsValid then Navbar.reload s doc target else .ok s := by
  have hnode : Jsx.descend sendMessageButtonPath (Contact : Jsx NavbarState) =
      some sendMessageButton := rfl
  have howner : formOwner (Contact : Jsx NavbarState) sendMessageButtonPath =
      some contactFormPath := by decide
  have hsubmit : (sendMessageButton : Jsx NavbarState).tag = "button" ∧
      (sendMessageButton : Jsx NavbarState).buttonType = "submit" := ⟨rfl, rfl⟩
  unfold clickButton
  rw [dispatch_no_handler "onClick" sendMessageButtonPath Contact s (contact_hasHandler _)]
  simp only [hnode, howner, if_pos hsubmit, contact_submitForm]
  rfl

/-! ## The frame callback -/

/-- C19: while App is mounted, every invocation of `raf(time)` performs
exactly one step: it calls `lenis.raf` once, with the timestamp it received,
and queues one next invocation. Hence after any run of display refreshes
since the mount, the next refresh at `time` invokes `raf` exactly once,
passes `time` to the live Lenis instance, and leaves exactly one callback
pending. -/
theorem raf_single_step :
    (∀ (time : Nat) (s : AppState),
      (raf time s).lenis.rafLog = s.lenis.rafLog ++ [(time, s.lenis.destroyed)] ∧
      (raf time s).pending = s.pending + 1 ∧
      (raf time s).rafInvocations = s.rafInvocations + 1 ∧
      (raf time s).lenis.destroyed = s.lenis.destroyed) ∧
    mount.pending = 1 ∧
    (∀ (times : List Nat) (time : Nat),
      (refreshes times mount).pending = 1 ∧
      (displayRefresh time (refreshes times mount)).pending = 1 ∧
      (displayRefresh time (refreshes times mount)).rafInvocations =
        (refreshes times mount).rafInvocations + 1 ∧
      (displayRefresh time (refreshes times mount)).lenis.rafLog =
        (refreshes times mount).lenis.rafLog ++ [(time, false)]) := by
  refine ⟨fun time s => ⟨rfl, rfl, rfl, rfl⟩, rfl, ?_⟩
  intro times time
  obtain ⟨h1, _, h3, _⟩ := refreshes_single times mount rfl
  obtain ⟨g1, g2, _, g4⟩ := displayRefresh_single time (refreshes times mount) h1
  refine ⟨h1, g1, g2, ?_⟩
  rw [g4, h3]
  rfl

/-! ## The toggle cycle and the root's theme class -/

/-- C21: `toggleTheme` cycles light -> dark -> system -> light and sends
every other value to light; so for each of the three themes three
consecutive toggles return the original theme, and one or two toggles never
do. -/
theorem toggleTheme_cycle :
    toggleTheme "light" = "dark" ∧
    toggleTheme "dark" = "system" ∧
    toggleTheme "system" = "light" ∧
    (∀ theme : String, theme ≠ "light" → theme ≠ "dark" → toggleTheme theme = "light") ∧
    (∀ theme : String, (theme = "light" ∨ theme = "dark" ∨ theme = "system") →
      toggleTheme (toggleTheme (toggleTheme theme)) = theme ∧
      toggleTheme theme ≠ theme ∧
      toggleTheme (toggleTheme theme) ≠ theme) := by
  refine ⟨rfl, rfl, rfl, ?_, ?_⟩
  · intro theme h1 h2
    simp [toggleTheme, h1, h2]
  · intro theme h
    rcases h with h | h | h <;> rw [h] <;> decide

theorem toggleTheme_cycle_witness :
    "blue" ≠ "light" ∧ "blue" ≠ "dark" ∧ toggleTheme "blue" = "light" ∧
    ("dark" = "light" ∨ "dark" = "dark" ∨ "dark" = "system") ∧
    toggleTheme (toggleTheme (toggleTheme "dark")) = "dark" ∧
    toggleTheme "dark" ≠ "dark" ∧
    toggleTheme (toggleTheme "dark") ≠ "dark" :=
  ⟨by decide, by decide, toggleTheme_cycle.2.2.2.1 "blue" (by decide) (by decide),
    Or.inr (Or.inl rfl), toggleTheme_cycle.2.2.2.2 "dark" (Or.inr (Or.inl rfl))⟩

theorem carriesExactlyOne_iff (classes : ClassList) :
    carriesExactlyOne classes = true ↔
      (("light" ∈ classes ∧ "dark" ∉ classes) ∨ ("dark" ∈ classes ∧ "light" ∉ classes)) := by
  unfold carriesExactlyOne
  by_cases hl : "light" ∈ classes <;> by_cases hd : "dark" ∈ classes <;> simp [hl, hd]

theorem carriesExactlyOne_of_mem (token : String) (h : token = "light" ∨ token = "dark")
    (classes added : ClassList)
    (hmem : ∀ x, x ∈ added ↔ (x ∈ classes ∧ x ≠ "light" ∧ x ≠ "dark") ∨ x = token) :
    carriesExactlyOne added = true := by
  rw [carriesExactlyOne_iff]
  rcases h with h | h
  · left
    refine ⟨(hmem "light").2 (Or.inr h.symm), ?_⟩
    intro hd
    have := (hmem "dark").1 hd
    rw [h] at this
    simp at this
  · right
    refine ⟨(hmem "dark").2 (Or.inr h.symm), ?_⟩
    intro hl
    have := (hmem "light").1 hl
    rw [h] at this
    simp at this

theorem themeEffect_exactlyOne (theme : String)
    (h : theme = "light" ∨ theme = "dark" ∨ theme = "system")
    (prefersDark : Bool) (env : ThemeEnv) :
    ∃ env', themeEffect theme prefersDark env = .ok env' ∧
      carriesExactlyOne env'.rootClasses = true := by
  rcases h with h | h | h
  · obtain ⟨added, hrun, hmem⟩ := themeEffect_explicit theme (Or.inl h) prefersDark env
    exact ⟨_, hrun, carriesExactlyOne_of_mem theme (Or.inl h) _ added hmem⟩
  · obtain ⟨added, hrun, hmem⟩ := themeEffect_explicit theme (Or.inr h) prefersDark env
    exact ⟨_, hrun, carriesExactlyOne_of_mem theme (Or.inr h) _ added hmem⟩
  · obtain ⟨added, hrun, hmem⟩ := themeEffect_system prefersDark env
    rw [h]
    refine ⟨_, hrun, carriesExactlyOne_of_mem _ ?_ _ added hmem⟩
    cases prefersDark
    · exact Or.inl rfl
    · exact Or.inr rfl

theorem toggleTheme_cases (theme : String) :
    toggleTheme theme = "light" ∨ toggleTheme theme = "dark" ∨ toggleTheme theme = "system" := by
  unfold toggleTheme
  split
  · exact Or.inr (Or.inl rfl)
  · split
    · exact Or.inr (Or.inr rfl)
    · exact Or.inl rfl

theorem hashEffect_ok (doc : Document) (location : Location) (v : Viewport) :
    ∃ v', hashEffect doc location v = .ok v' := by
  by_cases hhash : location.hash = ""
  · exact ⟨v, hashEffect_no_hash doc location v hhash⟩
  · cases hfind : getElementById doc (slice location.hash 1) with
    | none => exact ⟨v, hashEffect_missing doc location v hfind⟩
    | some e => exact ⟨_, hashEffect_found doc location v e hhash hfind⟩

theorem step_exactlyOne (event : NavbarEvent) (s : NavbarState)
    (h : carriesExactlyOne s.env.rootClasses = true) :
    ∃ s', Navbar.step event s = .ok s' ∧ carriesExactlyOne s'.env.rootClasses = true := by
  cases event with
  | scroll scrollY => exact ⟨_, rfl, h⟩
  | locationChange doc location =>
    obtain ⟨v', hv⟩ := hashEffect_ok doc location s.viewport
    refine ⟨{ s with viewport := v' }, ?_, h⟩
    simp only [Navbar.step, hv]
  | hamburgerClick => exact ⟨_, rfl, h⟩
  | navLinkClick => exact ⟨_, rfl, h⟩
  | logoClick => exact ⟨_, rfl, h⟩
  | themeClick =>
    obtain ⟨env', hrun, hone⟩ :=
      themeEffect_exactlyOne (toggleTheme s.theme) (toggleTheme_cases s.theme)
        s.prefersDark s.env
    refine ⟨{ s with theme := toggleTheme s.theme, env := env' }, ?_, hone⟩
    simp only [Navbar.step, hrun]
  | preferenceChange mediaMatches =>
    by_cases hsys : s.theme = "system"
    · obtain ⟨added, hstep, hd, hl⟩ := step_preferenceChange_system s mediaMatches hsys
      refine ⟨_, hstep, ?_⟩
      rw [carriesExactlyOne_iff]
      show ("light" ∈ added ∧ "dark" ∉ added) ∨ ("dark" ∈ added ∧ "light" ∉ added)
      cases mediaMatches
      · exact Or.inl ⟨hl.2 rfl, fun hmem => Bool.noConfusion (hd.1 hmem)⟩
      · exact Or.inr ⟨hd.2 rfl, fun hmem => Bool.noConfusion (hl.1 hmem)⟩
    · exact ⟨_, step_preferenceChange_other s mediaMatches hsys, h⟩

theorem run_exactlyOne (events : List NavbarEvent) :
    ∀ s : NavbarState, carriesExactlyOne s.env.rootClasses = true →
      ∃ s', Navbar.run events s = .ok s' ∧ carriesExactlyOne s'.env.rootClasses = true := by
  induction events with
  | nil => intro s h; exact ⟨s, rfl, h⟩
  | cons event rest ih =>
    intro s h
    obtain ⟨next, hstep, hnext⟩ := step_exactlyOne event s h
    obtain ⟨s', hrun, hs'⟩ := ih next hnext
    refine ⟨s', ?_, hs'⟩
    simp only [Navbar.run, hstep, hrun]

theorem mount_ok (storage : Storage) (rootClasses : ClassList) (prefersDark : Bool)
    (doc : Document) (location : Location) (viewport : Viewport)
    (h : initialTheme storage = "light" ∨ initialTheme storage = "dark" ∨
      initialTheme storage = "system") :
    ∃ s, Navbar.mount storage rootClasses prefersDark doc location viewport = .ok s ∧
      s.isScrolled = false ∧ s.theme = initialTheme storage ∧
      carriesExactlyOne s.env.rootClasses = true := by
  obtain ⟨env', hrun, hone⟩ :=
    themeEffect_exactlyOne (initialTheme storage) h prefersDark
      { rootClasses := rootClasses, storage := storage }
  obtain ⟨v', hv⟩ := hashEffect_ok doc location viewport
  refine ⟨{ isScrolled := false, isMobileMenuOpen := false, theme := initialTheme storage,
            env := env', prefersDark := prefersDark, viewport := v' }, ?_, rfl, rfl, hone⟩
  simp only [Navbar.mount, hrun, hv]

/-- C22: for each of the themes light, dark, system, every system
preference and every prior class list of the root, the theme effect
completes and leaves the root with exactly one of the classes `light` and
`dark` (never both, never neither); so does the media-query change handler
(registered for theme system). Hence a navigation bar mounted with one of
the three themes keeps exactly one of the two classes on the root through
every finite sequence of events, theme toggles and preference changes among
them. -/
theorem root_carries_exactly_one :
    (∀ classes : ClassList, carriesExactlyOne classes = true ↔
      (("light" ∈ classes ∧ "dark" ∉ classes) ∨ ("dark" ∈ classes ∧ "light" ∉ classes))) ∧
    (∀ (theme : String) (prefersDark : Bool) (env : ThemeEnv),
      (theme = "light" ∨ theme = "dark" ∨ theme = "system") →
      ∃ env', themeEffect theme prefersDark env = .ok env' ∧
        carriesExactlyOne env'.rootClasses = true) ∧
    (∀ (mediaMatches : Bool) (classes : ClassList),
      ∃ classes', handleChange "system" mediaMatches classes = .ok classes' ∧
        carriesExactlyOne classes' = true) ∧
    (∀ (storage : Storage) (rootClasses : ClassList) (prefersDark : Bool)
      (doc : Document) (location : Location) (viewport : Viewport)
      (events : List NavbarEvent),
      (initialTheme storage = "light" ∨ initialTheme storage = "dark" ∨
        initialTheme storage = "system") →
      ∃ s0 s', Navbar.mount storage rootClasses prefersDark doc location viewport = .ok s0 ∧
        carriesExactlyOne s0.env.rootClasses = true ∧
        Navbar.run events s0 = .ok s' ∧
        carriesExactlyOne s'.env.rootClasses = true) := by
  refine ⟨carriesExactlyOne_iff, ?_, ?_, ?_⟩
  · intro theme prefersDark env h
    exact themeEffect_exactlyOne theme h prefersDark env
  · intro mediaMatches classes
    obtain ⟨added, hrun, hd, hl⟩ := handleChange_system mediaMatches classes
    refine ⟨added, hrun, ?_⟩
    rw [carriesExactlyOne_iff]
    cases mediaMatches
    · exact Or.inl ⟨hl.2 rfl, fun hmem => Bool.noConfusion (hd.1 hmem)⟩
    · exact Or.inr ⟨hd.2 rfl, fun hmem => Bool.noConfusion (hl.1 hmem)⟩
  · intro storage rootClasses prefersDark doc location viewport events h
    obtain ⟨s0, hmount, _, _, hone⟩ :=
      mount_ok storage rootClasses prefersDark doc location viewport h
    obtain ⟨s', hrun, hs'⟩ := run_exactlyOne events s0 hone
    exact ⟨s0, s', hmount, hone, hrun, hs'⟩

theorem root_carries_exactly_one_witness :
    ("dark" = "light" ∨ "dark" = "dark" ∨ "dark" = "system") ∧
    (∃ env', themeEffect "dark" true { rootClasses := ["light", "dark", "x"], storage := none }
        = .ok env' ∧ carriesExactlyOne env'.rootClasses = true) ∧
    (initialTheme none = "light" ∨ initialTheme none = "dark" ∨
      initialTheme none = "system") ∧
    (∃ s0 s', Navbar.mount none [] false homeDocument ⟨"/", "", ""⟩ sampleViewport = .ok s0 ∧
      carriesExactlyOne s0.env.rootClasses = true ∧
      Navbar.run [.themeClick, .preferenceChange true, .themeClick, .themeClick,
        .preferenceChange false] s0 = .ok s' ∧
      carriesExactlyOne s'.env.rootClasses = true) :=
  ⟨Or.inr (Or.inl rfl),
    root_carries_exactly_one.2.1 "dark" true _ (Or.inr (Or.inl rfl)),
    Or.inr (Or.inr rfl),
    root_carries_exactly_one.2.2.2 none [] false homeDocument ⟨"/", "", ""⟩ sampleViewport
      [.themeClick, .preferenceChange true, .themeClick, .themeClick,
        .preferenceChange false] (Or.inr (Or.inr rfl))⟩

/-! ## The scrolled flag -/

/-- C26: after every scroll event the `isScrolled` flag equals
`window.scrollY > 20`: false for every offset up to and including 20, true
for every offset above 20. Before the first scroll event it is false,
whatever offset the viewport has when the navigation bar mounts. -/
theorem isScrolled_threshold :
    (∀ s : NavbarState, (handleScroll s).isScrolled = decide (s.viewport.scrollY > 20)) ∧
    (∀ (s : NavbarState) (scrollY : Nat),
      ∃ s', Navbar.step (.scroll scrollY) s = .ok s' ∧
        s'.viewport.scrollY = scrollY ∧
        s'.isScrolled = decide (scrollY > 20) ∧
        (scrollY ≤ 20 → s'.isScrolled = false) ∧
        (20 < scrollY → s'.isScrolled = true)) ∧
    (∀ (storage : Storage) (rootClasses : ClassList) (prefersDark : Bool)
      (doc : Document) (location : Location) (viewport : Viewport) (s : NavbarState),
      Navbar.mount storage rootClasses prefersDark doc location viewport = .ok s →
      s.isScrolled = false) ∧
    (∀ (storage : Storage) (rootClasses : ClassList) (prefersDark : Bool)
      (doc : Document) (location : Location) (viewport : Viewport),
      (initialTheme storage = "light" ∨ initialTheme storage = "dark" ∨
        initialTheme storage = "system") →
      ∃ s, Navbar.mount storage rootClasses prefersDark doc location viewport = .ok s ∧
        s.isScrolled = false) := by
  refine ⟨fun s => rfl, ?_, ?_, ?_⟩
  · intro s scrollY
    refine ⟨_, rfl, rfl, rfl, ?_, ?_⟩
    · intro h
      show decide (scrollY > 20) = false
      simp; omega
    · intro h
      show decide (scrollY > 20) = true
      simp; omega
  · intro storage rootClasses prefersDark doc location viewport s hmount
    unfold Navbar.mount at hmount
    simp only at hmount
    split at hmount
    · cases hmount
    · split at hmount
      · cases hmount
      · injection hmount with heq
        rw [← heq]
  · intro storage rootClasses prefersDark doc location viewport h
    obtain ⟨s, hmount, hfalse, _, _⟩ :=
      mount_ok storage rootClasses prefersDark doc location viewport h
    exact ⟨s, hmount, hfalse⟩

theorem isScrolled_threshold_witness :
    (20 ≤ 20 ∧ ∃ s', Navbar.step (.scroll 20) sampleNavbar = .ok s' ∧ s'.isScrolled = false) ∧
    (20 < 21 ∧ ∃ s', Navbar.step (.scroll 21) sampleNavbar = .ok s' ∧ s'.isScrolled = true) ∧
    (Navbar.mount none [] false homeDocument ⟨"/", "", ""⟩ { scrollY := 500, requests := [] } =
        .ok { sampleNavbar with viewport := { scrollY := 500, requests := [] } } ∧
      ({ sampleNavbar with viewport := { scrollY := 500, requests := [] } } :
        NavbarState).isScrolled = false) ∧
    ((initialTheme none = "light" ∨ initialTheme none = "dark" ∨
        initialTheme none = "system") ∧
      ∃ s, Navbar.mount none [] true homeDocument ⟨"/", "", ""⟩
          { scrollY := 500, requests := [] } = .ok s ∧ s.isScrolled = false) := by
  refine ⟨⟨le_rfl, ?_⟩, ⟨by decide, ?_⟩, ⟨rfl, ?_⟩, ⟨Or.inr (Or.inr rfl), ?_⟩⟩
  · obtain ⟨s', hstep, _, _, hle, _⟩ := isScrolled_threshold.2.1 sampleNavbar 20
    exact ⟨s', hstep, hle le_rfl⟩
  · obtain ⟨s', hstep, _, _, _, hgt⟩ := isScrolled_threshold.2.1 sampleNavbar 21
    exact ⟨s', hstep, hgt (by decide)⟩
  · exact isScrolled_threshold.2.2.1 none [] false homeDocument ⟨"/", "", ""⟩
      { scrollY := 500, requests := [] } _ rfl
  · exact isScrolled_threshold.2.2.2 none [] true homeDocument ⟨"/", "", ""⟩
      { scrollY := 500, requests := [] } (Or.inr (Or.inr rfl))

/-! ## Links, categories and colours -/

/-- C23: not every internal link target resolves to a route. The call to
action of each pricing plan points to `/get-started` and the article links
of the blog to `/blog/1` ... `/blog/9`; none of these is one of the nine
route paths, so no route element is rendered for them. Every other `to`
target of Navbar, Footer, About, Pricing, Schools and OurStory, its fragment
removed, is a route path. -/
theorem dead_link_targets :
    pricingLinkTargets = ["/get-started", "/contact"] ∧
    resolves "/get-started" = false ∧
    routeElement (parsePath "/get-started").pathname = none ∧
    blogLinkTargets =
      ["/blog/1", "/blog/2", "/blog/3", "/blog/4", "/blog/5", "/blog/6", "/blog/7",
       "/blog/8", "/blog/9"] ∧
    routeElement (parsePath "/blog/1").pathname = none ∧
    linkTargets.filter (fun target => !resolves target) =
      ["/get-started", "/blog/1", "/blog/2", "/blog/3", "/blog/4", "/blog/5", "/blog/6",
       "/blog/7", "/blog/8", "/blog/9"] ∧
    (navbarLinkTargets ++ footerLinkTargets ++ aboutLinkTargets ++ schoolsLinkTargets ++
      ourStoryLinkTargets).all resolves = true ∧
    resolves "/contact" = true := by
  decide

/-- C27: two blog posts have a category the filter does not offer. Post 6
has category `Guide` and post 9 category `Tips`; neither is in `categories`.
The featured post and the other six posts of the grid have a category among
the filter buttons. -/
theorem posts_without_filter :
    postsWithoutFilter.map (fun post => (post.id, post.category)) =
      [(6, "Guide"), (9, "Tips")] ∧
    categories.contains "Guide" = false ∧
    categories.contains "Tips" = false ∧
    categories.contains featuredPost.category = true ∧
    (allPosts.filter (fun post => categories.contains post.category)).map
        (fun post => post.id) = [1, 2, 3, 4, 5, 7, 8] := by
  decide

/-- C28: six of the theme colours the pages refer to are not defined by the
Tailwind theme. The families `secondary` and `accent` are absent from
`theme.extend.colors` and the family `text` has no shade `tertiary`; the
colours primary-light, primary-dark, text-primary, text-secondary and
background-light are defined. -/
theorem undefined_theme_colors :
    referencedColors =
      [("text", "primary"), ("primary", "light"), ("text", "secondary"),
       ("secondary", "light"), ("secondary", "DEFAULT"), ("text", "tertiary"),
       ("accent", "light"), ("accent", "DEFAULT"), ("background", "light"),
       ("primary", "dark"), ("accent", "dark")] ∧
    undefinedColors =
      [("secondary", "light"), ("secondary", "DEFAULT"), ("text", "tertiary"),
       ("accent", "light"), ("accent", "DEFAULT"), ("accent", "dark")] ∧
    colors.map (fun family => family.1) = ["primary", "background", "text", "button"] ∧
    colorValue "secondary" "light" = none ∧
    colorValue "accent" "DEFAULT" = none ∧
    colorValue "text" "tertiary" = none ∧
    colorDefined "bg-accent-light/10" = false ∧
    colorValue "primary" "light" = some "#8ECAE6" ∧
    colorValue "primary" "dark" = some "#0D47A1" ∧
    colorValue "text" "primary" = some "var(--text-primary)" ∧
    colorValue "text" "secondary" = some "var(--text-secondary)" ∧
    colorValue "background" "light" = some "var(--bg-light)" := by
  decide

/-! ## Where the clamp engages -/

theorem pow_at_clampPoint : (2 : ℝ) ^ (-10 * clampPoint) = 0.001 := by
  have h : -10 * clampPoint = -(Real.logb 2 1000) := by
    unfold clampPoint
    ring
  rw [h, Real.rpow_neg (by norm_num),
    Real.rpow_logb (by norm_num) (by norm_num) (by norm_num)]
  norm_num

theorem clampPoint_lower : 0.9965 < clampPoint := by
  have hpow : (2 : ℝ) ^ (9.965 : ℝ) < 1000 := by
    apply lt_of_pow_lt_pow_left₀ 200 (by norm_num)
    rw [← Real.rpow_natCast, ← Real.rpow_mul (by norm_num)]
    have hexp : (9.965 : ℝ) * ((200 : ℕ) : ℝ) = ((1993 : ℕ) : ℝ) := by norm_num
    rw [hexp, Real.rpow_natCast]
    norm_num
  have hlog : (9.965 : ℝ) < Real.logb 2 1000 :=
    (Real.lt_logb_iff_rpow_lt (by norm_num) (by norm_num)).2 hpow
  unfold clampPoint
  linarith

theorem clampPoint_upper : clampPoint < 0.9966 := by
  have hpow : (1000 : ℝ) < (2 : ℝ) ^ (9.966 : ℝ) := by
    apply lt_of_pow_lt_pow_left₀ 500 (Real.rpow_nonneg (by norm_num) _)
    rw [← Real.rpow_natCast ((2 : ℝ) ^ (9.966 : ℝ)), ← Real.rpow_mul (by norm_num)]
    have hexp : (9.966 : ℝ) * ((500 : ℕ) : ℝ) = ((4983 : ℕ) : ℝ) := by norm_num
    rw [hexp, Real.rpow_natCast]
    norm_num
  have hlog : Real.logb 2 1000 < (9.966 : ℝ) :=
    (Real.logb_lt_iff_lt_rpow (by norm_num) (by norm_num)).2 hpow
  unfold clampPoint
  linarith

theorem easing_below_clampPoint (t : ℝ) (ht : t < clampPoint) :
    easing t = 1.001 - (2 : ℝ) ^ (-10 * t) ∧ easing t < 1 := by
  have hpow : (2 : ℝ) ^ (-10 * clampPoint) < (2 : ℝ) ^ (-10 * t) :=
    Real.rpow_lt_rpow_of_exponent_lt (by norm_num) (by linarith)
  rw [pow_at_clampPoint] at hpow
  have hlt : 1.001 - (2 : ℝ) ^ (-10 * t) < 1 := by linarith
  have heq : easing t = 1.001 - (2 : ℝ) ^ (-10 * t) := by
    unfold easing
    exact min_eq_right hlt.le
  exact ⟨heq, by rw [heq]; exact hlt⟩

theorem easing_from_clampPoint (t : ℝ) (ht : clampPoint ≤ t) : easing t = 1 := by
  have hpow : (2 : ℝ) ^ (-10 * t) ≤ (2 : ℝ) ^ (-10 * clampPoint) :=
    Real.rpow_le_rpow_of_exponent_le (by norm_num) (by linarith)
  rw [pow_at_clampPoint] at hpow
  unfold easing
  exact min_eq_left (by linarith)

/-- C25: the clamp of the easing engages only at the very end of the
interval. With `t* = log2(1000) / 10`, which lies between 0.9965 and 0.9966:
for every `t` in `[0, t*)`, `e(t) = 1.001 - 2^(-10 t)` and `e(t) < 1`; `e` is
strictly increasing on `[0, t*)`; `e(t) = 1` for every `t ≥ t*`; and
`e(t) ≥ 0.001` for every `t ≥ 0`. -/
theorem clamp_engages_at_end :
    (0.9965 < clampPoint ∧ clampPoint < 0.9966) ∧
    (∀ t : ℝ, 0 ≤ t → t < clampPoint →
      easing t = 1.001 - (2 : ℝ) ^ (-10 * t) ∧ easing t < 1) ∧
    (∀ s t : ℝ, 0 ≤ s → s < t → t < clampPoint → easing s < easing t) ∧
    (∀ t : ℝ, clampPoint ≤ t → easing t = 1) ∧
    (∀ t : ℝ, 0 ≤ t → 0.001 ≤ easing t) := by
  refine ⟨⟨clampPoint_lower, clampPoint_upper⟩, ?_, ?_, easing_from_clampPoint, ?_⟩
  · intro t _ ht
    exact easing_below_clampPoint t ht
  · intro s t _ hst ht
    rw [(easing_below_clampPoint s (lt_trans hst ht)).1, (easing_below_clampPoint t ht).1]
    have hpow : (2 : ℝ) ^ (-10 * t) < (2 : ℝ) ^ (-10 * s) :=
      Real.rpow_lt_rpow_of_exponent_lt (by norm_num) (by linarith)
    linarith
  · intro t ht
    have hp := pow_neg_le_one t ht
    unfold easing
    exact le_min (by norm_num) (by linarith)

theorem clamp_engages_at_end_witness :
    ((0 : ℝ) ≤ 1 / 2 ∧ (1 / 2 : ℝ) < clampPoint ∧
      easing (1 / 2) = 1.001 - (2 : ℝ) ^ (-10 * (1 / 2 : ℝ)) ∧ easing (1 / 2) < 1) ∧
    ((0 : ℝ) ≤ 0 ∧ (0 : ℝ) < 1 / 2 ∧ easing 0 < easing (1 / 2)) ∧
    (clampPoint ≤ 1 ∧ easing 1 = 1) ∧
    ((0 : ℝ) ≤ 0 ∧ (0.001 : ℝ) ≤ easing 0) := by
  have hlow := clampPoint_lower
  have hup := clampPoint_upper
  have hhalf : (1 / 2 : ℝ) < clampPoint := by linarith
  have hone : clampPoint ≤ 1 := by linarith
  exact ⟨⟨by norm_num, hhalf, clamp_engages_at_end.2.1 (1 / 2) (by norm_num) hhalf⟩,
    ⟨le_rfl, by norm_num,
      clamp_engages_at_end.2.2.1 0 (1 / 2) le_rfl (by norm_num) hhalf⟩,
    ⟨hone, clamp_engages_at_end.2.2.2.1 1 hone⟩,
    ⟨le_rfl, clamp_engages_at_end.2.2.2.2 0 le_rfl⟩⟩

/-! ## Submitting the contact form -/

theorem hashEffect_scrollY (doc : Document) (location : Location) (v v' : Viewport)
    (h : hashEffect doc location v = .ok v') : v'.scrollY = v.scrollY := by
  by_cases hhash : location.hash = ""
  · rw [hashEffect_no_hash doc location v hhash] at h
    injection h with heq
    rw [← heq]
  · cases hfind : getElementById doc (slice location.hash 1) with
    | none =>
      rw [hashEffect_missing doc location v hfind] at h
      injection h with heq
      rw [← heq]
    | some e =>
      rw [hashEffect_found doc location v e hhash hfind] at h
      injection h with heq
      rw [← heq]

theorem reload_resets (s : NavbarState) (doc : Document) (target : Location)
    (h : initialTheme s.env.storage = "light" ∨ initialTheme s.env.storage = "dark" ∨
      initialTheme s.env.storage = "system") :
    ∃ s', Navbar.reload s doc target = .ok s' ∧
      s'.isScrolled = false ∧ s'.isMobileMenuOpen = false ∧
      s'.theme = initialTheme s.env.storage ∧ s'.viewport.scrollY = 0 := by
  obtain ⟨env', hrun, _⟩ :=
    themeEffect_exactlyOne (initialTheme s.env.storage) h s.prefersDark
      { rootClasses := [], storage := s.env.storage }
  obtain ⟨v', hv⟩ := hashEffect_ok doc target { scrollY := 0, requests := [] }
  refine ⟨{ isScrolled := false, isMobileMenuOpen := false,
            theme := initialTheme s.env.storage, env := env',
            prefersDark := s.prefersDark, viewport := v' }, ?_, rfl, rfl, rfl, ?_⟩
  · simp only [Navbar.reload, Navbar.mount, hrun, hv]
  · exact hashEffect_scrollY doc target _ v' hv

/-- C18 (as stated, refuted): submitting the contact form changes the
application state. With the navigation bar scrolled (offset 800, `isScrolled`
set, menu open), a click on `Send Message` with valid controls submits the
form natively and reloads the page: the navigation bar is mounted anew, not
scrolled and with the menu closed. -/
theorem contact_submit_changes_state :
    clickButton Contact sendMessageButtonPath true [] contactLocation scrolledNavbar =
      .ok darkNavbar ∧
    ¬ (clickButton Contact sendMessageButtonPath true [] contactLocation scrolledNavbar =
      .ok scrolledNavbar) := by
  have hrun : clickButton Contact sendMessageButtonPath true [] contactLocation
      scrolledNavbar = .ok darkNavbar := by
    rw [contact_clickButton]
    rfl
  refine ⟨hrun, ?_⟩
  intro h
  rw [hrun] at h
  injection h with heq
  exact absurd heq (by decide)

/-- C18 (amended): the contact form has no submit handler. The `form`
element of Contact binds no `onSubmit` and its `Send Message` button binds
no `onClick`; indeed no element of the component binds any handler, so an
event of any name dispatched anywhere in it runs no application-defined
handler, leaves the state to the browser unchanged and never prevents the
default action. The button has no `type`, so it is a submit button owned by
the form: a click with valid controls submits the form, which reloads the
page and mounts the application anew (not scrolled, menu closed, theme read
from storage) instead of leaving the state as it was; with invalid controls
nothing happens. -/
theorem contact_form_submit_reloads (σ : Type) (doc : Document) (target : Location)
    (s : NavbarState) :
    Jsx.descend contactFormPath (Contact : Jsx σ) = some contactForm ∧
    Jsx.descend sendMessageButtonPath (Contact : Jsx σ) = some sendMessageButton ∧
    (contactForm : Jsx σ).tag = "form" ∧
    (sendMessageButton : Jsx σ).tag = "button" ∧
    (sendMessageButton : Jsx σ).children = [.text "Send Message"] ∧
    handlerOf "onSubmit" (contactForm : Jsx σ).props = none ∧
    handlerOf "onClick" (sendMessageButton : Jsx σ).props = none ∧
    (Contact : Jsx σ).hasHandler = false ∧
    (∀ (name : String) (path : List Nat) (state : σ),
      dispatch name path Contact state = (state, false)) ∧
    (sendMessageButton : Jsx σ).buttonType = "submit" ∧
    formOwner (Contact : Jsx NavbarState) sendMessageButtonPath = some contactFormPath ∧
    submitForm Contact contactFormPath doc target s = Navbar.reload s doc target ∧
    clickButton Contact sendMessageButtonPath true doc target s =
      Navbar.reload s doc target ∧
    clickButton Contact sendMessageButtonPath false doc target s = .ok s ∧
    ((initialTheme s.env.storage = "light" ∨ initialTheme s.env.storage = "dark" ∨
        initialTheme s.env.storage = "system") →
      ∃ s', clickButton Contact sendMessageButtonPath true doc target s = .ok s' ∧
        s'.isScrolled = false ∧ s'.isMobileMenuOpen = false ∧
        s'.theme = initialTheme s.env.storage ∧ s'.viewport.scrollY = 0) := by
  refine ⟨rfl, rfl, rfl, rfl, rfl, rfl, rfl, contact_hasHandler σ,
    fun name path state => dispatch_no_handler name path _ state (contact_hasHandler σ),
    rfl, by decide, contact_submitForm doc target s, ?_, ?_, ?_⟩
  · rw [contact_clickButton]; rfl
  · rw [contact_clickButton]; rfl
  · intro h
    obtain ⟨s', hreload, h1, h2, h3, h4⟩ := reload_resets s doc target h
    refine ⟨s', ?_, h1, h2, h3, h4⟩
    rw [contact_clickButton]
    exact hreload

theorem contact_form_submit_reloads_witness :
    (initialTheme scrolledNavbar.env.storage = "light" ∨
      initialTheme scrolledNavbar.env.storage = "dark" ∨
      initialTheme scrolledNavbar.env.storage = "system") ∧
    ∃ s', clickButton Contact sendMessageButtonPath true [] contactLocation scrolledNavbar =
        .ok s' ∧
      s'.isScrolled = false ∧ s'.isMobileMenuOpen = false ∧
      s'.theme = initialTheme scrolledNavbar.env.storage ∧ s'.viewport.scrollY = 0 :=
  ⟨Or.inr (Or.inl rfl),
    (contact_form_submit_reloads Unit [] contactLocation scrolledNavbar).2.2.2.2.2.2.2.2.2.2.2.2.2.2
      (Or.inr (Or.inl rfl))⟩

end Lifemonk
